import Mathlib

/-!
Shallow embedding of the ClipNest clipboard-canvas core (the Vue component in
the repository's clipboard tab, plus the Electron clipboard bridge types).

JavaScript numbers are modelled as rationals (ℚ): every arithmetic operation
the embedded code performs (+, -, *, /, min, max, Math.round) is exact on the
doubles the program actually manipulates, and Math.round (half toward +∞)
coincides with Mathlib's round (round x = ⌊x + 1/2⌋).  Identifiers produced by
crypto.randomUUID() are modelled as opaque Nat values passed in as parameters;
Date.now() timestamps are ℤ parameters.  Vue refs become explicit record
fields; DOM reads (viewport center, text-input focus, mouse coordinates) and
IPC results (clipboard read/write outcomes) are parameters of the operations
that consume them.  Deep cloning of snapshots (deepCloneItems) is the identity
on pure values.
-/

namespace ClipNest

/-- CANVAS_WIDTH constant (2000 logical pixels). -/
def CANVAS_WIDTH : ℚ := 2000

/-- CANVAS_HEIGHT constant (2000 logical pixels). -/
def CANVAS_HEIGHT : ℚ := 2000

/-- MAX_IMAGES constant: the item cap. -/
def MAX_IMAGES : Nat := 50

/-- MIN_SIZE constant: minimum item side length. -/
def MIN_SIZE : ℚ := 24

/-- INITIAL_MAX_SIDE constant for initial sizing. -/
def INITIAL_MAX_SIDE : ℚ := 420

/-- INITIAL_MIN_SIDE constant for initial sizing. -/
def INITIAL_MIN_SIDE : ℚ := 80

/-- UNDO_LIMIT constant: undo stack capacity. -/
def UNDO_LIMIT : Nat := 50

/-- PLACEMENT_OFFSET_STEP constant: diagonal cascade step. -/
def PLACEMENT_OFFSET_STEP : ℚ := 24

/-- The clamp helper: returns min when the interval is inverted, otherwise
Math.min(max, Math.max(min, value)). -/
def clamp (value mn mx : ℚ) : ℚ :=
if mx < mn then mn else min mx (max mn value)

/-- Math.round on a rational, re-cast to ℚ (JS Math.round rounds half toward +∞,
exactly Mathlib round). -/
def roundq (q : ℚ) : ℚ :=
((round q : ℤ) : ℚ)

/-- Origin tag of a canvas item (pasted vs dropped). -/
inductive ImageSource
| paste
| drop
deriving DecidableEq

/-- CanvasImageItem from src/types/models.ts. -/
structure CanvasImageItem where
  id : Nat
  source : ImageSource
  dataUrl : String
  naturalWidth : ℚ
  naturalHeight : ℚ
  x : ℚ
  y : ℚ
  width : ℚ
  height : ℚ
  zIndex : ℤ
  createdAt : ℤ
deriving DecidableEq

/-- ClipboardCanvasState from src/types/models.ts.  ClipboardCanvasSnapshot has
the same fields; snapshots are deep copies, which on pure values is the
identity, so both are this one type. -/
structure CanvasState where
  items : List CanvasImageItem
  selectedId : Option Nat
  nextZIndex : ℤ
  placementOffsetIndex : Nat
deriving DecidableEq

/-- The eight resize handles. -/
inductive ResizeHandle
| n
| ne
| e
| se
| s
| sw
| w
| nw
deriving DecidableEq

/-- handle.includes("e") on the handle string. -/
def ResizeHandle.hasE : ResizeHandle → Bool
| .e => true
| .ne => true
| .se => true
| _ => false

/-- handle.includes("w") on the handle string. -/
def ResizeHandle.hasW : ResizeHandle → Bool
| .w => true
| .sw => true
| .nw => true
| _ => false

/-- handle.includes("n") on the handle string. -/
def ResizeHandle.hasN : ResizeHandle → Bool
| .n => true
| .ne => true
| .nw => true
| _ => false

/-- handle.includes("s") on the handle string. -/
def ResizeHandle.hasS : ResizeHandle → Bool
| .s => true
| .se => true
| .sw => true
| _ => false

/-- isCornerHandle: handle.length === 2. -/
def isCornerHandle : ResizeHandle → Bool
| .ne => true
| .se => true
| .sw => true
| .nw => true
| _ => false

/-- MoveInteraction record. -/
structure MoveInteraction where
  itemId : Nat
  startClientX : ℚ
  startClientY : ℚ
  startX : ℚ
  startY : ℚ
  startSnapshot : CanvasState
deriving DecidableEq

/-- ResizeInteraction record. -/
structure ResizeInteraction where
  itemId : Nat
  handle : ResizeHandle
  startClientX : ℚ
  startClientY : ℚ
  startX : ℚ
  startY : ℚ
  startWidth : ℚ
  startHeight : ℚ
  startSnapshot : CanvasState
deriving DecidableEq

/-- Interaction sum type (Move | Resize). -/
inductive Interaction
| move (m : MoveInteraction)
| resize (r : ResizeInteraction)
deriving DecidableEq

/-- The interaction's itemId field. -/
def Interaction.itemId : Interaction → Nat
| .move m => m.itemId
| .resize r => r.itemId

/-- The interaction's startSnapshot field. -/
def Interaction.startSnapshot : Interaction → CanvasState
| .move m => m.startSnapshot
| .resize r => r.startSnapshot

/-- The component-level mutable refs of the clipboard tab: state, undoStack,
noticeMessage, interaction.  (isDragActive and the viewport ref are DOM-only
and carry no canvas data.) -/
structure Component where
  state : CanvasState
  undoStack : List CanvasState
  noticeMessage : String
  interaction : Option Interaction
deriving DecidableEq

/-- createSnapshot(): a deep clone of the live state (identity on pure values). -/
def createSnapshot (c : Component) : CanvasState :=
c.state

/-- applySnapshot(snapshot): replaces the live state wholesale. -/
def applySnapshot (c : Component) (snapshot : CanvasState) : Component :=
{ c with state := snapshot }

/-- toUndoComparable: the JSON.stringify projection used for history-equality;
it covers items, nextZIndex and placementOffsetIndex and intentionally
excludes selectedId.  Objects are built with a fixed key order, so JSON string
equality coincides with structural equality of this triple. -/
def toUndoComparable (s : CanvasState) : List CanvasImageItem × ℤ × Nat :=
(s.items, s.nextZIndex, s.placementOffsetIndex)

/-- isUndoTargetChanged(before, after). -/
def isUndoTargetChanged (before after : CanvasState) : Bool :=
decide (toUndoComparable before ≠ toUndoComparable after)

/-- pushUndo(snapshot): append, then trim the stack to the most recent
UNDO_LIMIT entries. -/
def pushUndo (stack : List CanvasState) (snapshot : CanvasState) : List CanvasState :=
let next := stack ++ [snapshot]
if next.length > UNDO_LIMIT then next.drop (next.length - UNDO_LIMIT) else next

/-- canUndo computed ref: undoStack.length > 0. -/
def canUndo (c : Component) : Bool :=
decide (c.undoStack.length > 0)

/-- undo(): no-op when the stack is empty or an interaction is active;
otherwise pop the most recent snapshot and apply it. -/
def undo (c : Component) : Component :=
if ¬ (canUndo c = true) ∨ c.interaction ≠ none then c
else
  match c.undoStack.getLast? with
  | none => c
  | some snapshot =>
      { applySnapshot c snapshot with
          undoStack := c.undoStack.dropLast,
          noticeMessage := "元に戻しました。" }

/-- getItemById(itemId). -/
def getItemById (st : CanvasState) (itemId : Nat) : Option CanvasImageItem :=
st.items.find? (fun item => item.id == itemId)

/-- updateItem(itemId, updater). -/
def updateItem (st : CanvasState) (itemId : Nat)
    (updater : CanvasImageItem → CanvasImageItem) : CanvasState :=
{ st with items := st.items.map (fun item => if item.id = itemId then updater item else item) }

/-- bringToFront(itemId): assigns the next z-index unless the item is already
topmost (its zIndex is at least the reduce-max over all items, seeded with 0).
The source returns a Bool which no caller consumes; the state is returned. -/
def bringToFront (st : CanvasState) (itemId : Nat) : CanvasState :=
match getItemById st itemId with
| none => st
| some current =>
    let currentMaxZ := st.items.foldl (fun maxZ item => max maxZ item.zIndex) 0
    if current.zIndex ≥ currentMaxZ then st
    else
      let nz := st.nextZIndex
      updateItem { st with nextZIndex := st.nextZIndex + 1 } itemId
        (fun item => { item with zIndex := nz })

/-- selectItem(itemId): set selectedId, then bringToFront. -/
def selectItem (st : CanvasState) (itemId : Nat) : CanvasState :=
bringToFront { st with selectedId := some itemId } itemId

/-- enforceImageLimit(): when over MAX_IMAGES, evict the oldest items by
createdAt ascending (JS Array.prototype.sort is stable, hence mergeSort), and
clear the selection when its id is evicted.  The source collects the ids in a
Set; only membership is used, so a list with contains is the same function. -/
def enforceImageLimit (st : CanvasState) : CanvasState :=
if st.items.length ≤ MAX_IMAGES then st
else
  let overflow := st.items.length - MAX_IMAGES
  let removeIds :=
    ((st.items.mergeSort (fun a b => decide (a.createdAt ≤ b.createdAt))).take overflow).map
      (fun item => item.id)
  let items2 := st.items.filter (fun item => ! removeIds.contains item.id)
  let selected2 :=
    match st.selectedId with
    | some sid => if removeIds.contains sid then none else some sid
    | none => none
  { st with items := items2, selectedId := selected2 }

/-- normalizeInitialSize(naturalWidth, naturalHeight): scale the longer side
into the band [INITIAL_MIN_SIDE, INITIAL_MAX_SIDE], round, floor at MIN_SIZE. -/
def normalizeInitialSize (naturalWidth naturalHeight : ℚ) : ℚ × ℚ :=
let width := max 1 naturalWidth
let height := max 1 naturalHeight
let longest := max width height
let scale :=
  if longest > INITIAL_MAX_SIDE then INITIAL_MAX_SIDE / longest
  else if longest < INITIAL_MIN_SIDE then INITIAL_MIN_SIDE / longest
  else 1
(max MIN_SIZE (roundq (width * scale)), max MIN_SIZE (roundq (height * scale)))

/-- isOutOfBounds(x, y, width, height). -/
def isOutOfBounds (x y width height : ℚ) : Bool :=
decide (x < 0) || decide (y < 0) ||
decide (x + width > CANVAS_WIDTH) || decide (y + height > CANVAS_HEIGHT)

/-- The calc helper inside resolveInitialPlacement: the candidate point at a
given offset index, centred on the viewport center. -/
def placementCalc (center : ℚ × ℚ) (width height : ℚ) (offsetIndex : Nat) : ℚ × ℚ :=
(roundq (center.1 - width / 2 + (offsetIndex : ℚ) * PLACEMENT_OFFSET_STEP),
 roundq (center.2 - height / 2 + (offsetIndex : ℚ) * PLACEMENT_OFFSET_STEP))

/-- resolveInitialPlacement(width, height): candidate at the stored offset,
reset to offset 0 when out of bounds, store offset+1, clamp into the canvas.
The viewport center (a DOM read) is a parameter.  Returns the position and the
state with the updated placementOffsetIndex. -/
def resolveInitialPlacement (center : ℚ × ℚ) (st : CanvasState) (width height : ℚ) :
    (ℚ × ℚ) × CanvasState :=
let offsetIndex := st.placementOffsetIndex
let point := placementCalc center width height offsetIndex
let reset := isOutOfBounds point.1 point.2 width height
let offsetIndex2 := if reset then 0 else offsetIndex
let point2 := if reset then placementCalc center width height 0 else point
((clamp point2.1 0 (CANVAS_WIDTH - width), clamp point2.2 0 (CANVAS_HEIGHT - height)),
 { st with placementOffsetIndex := offsetIndex2 + 1 })

/-- The externally generated identity of a new item: crypto.randomUUID() and
Date.now() are nondeterministic inputs, passed as parameters. -/
structure NewItemMeta where
  newId : Nat
  createdAt : ℤ
deriving DecidableEq

/-- createCanvasItem(dataUrl, naturalWidth, naturalHeight, source): normalize
the size, resolve placement, consume the next z-index. -/
def createCanvasItem (center : ℚ × ℚ) (meta : NewItemMeta) (st : CanvasState)
    (dataUrl : String) (naturalWidth naturalHeight : ℚ) (source : ImageSource) :
    CanvasImageItem × CanvasState :=
let size := normalizeInitialSize naturalWidth naturalHeight
let pr := resolveInitialPlacement center st size.1 size.2
let st1 := pr.2
let nz := st1.nextZIndex
let st2 := { st1 with nextZIndex := st1.nextZIndex + 1 }
({ id := meta.newId, source := source, dataUrl := dataUrl,
   naturalWidth := naturalWidth, naturalHeight := naturalHeight,
   x := pr.1.1, y := pr.1.2, width := size.1, height := size.2,
   zIndex := nz, createdAt := meta.createdAt }, st2)

/-- addCanvasItem: create, append, select the new item, enforce the cap. -/
def addCanvasItem (center : ℚ × ℚ) (meta : NewItemMeta) (st : CanvasState)
    (dataUrl : String) (naturalWidth naturalHeight : ℚ) (source : ImageSource) :
    CanvasState :=
let cr := createCanvasItem center meta st dataUrl naturalWidth naturalHeight source
enforceImageLimit
  { cr.2 with items := cr.2.items ++ [cr.1], selectedId := some cr.1.id }

/-- removeItem(itemId): filter the item out; clear selection when something was
removed and it was the selected item.  Returns the new state and the removed
flag. -/
def removeItem (st : CanvasState) (itemId : Nat) : CanvasState × Bool :=
let beforeLength := st.items.length
let items2 := st.items.filter (fun item => item.id != itemId)
let removed := items2.length != beforeLength
let selected2 :=
  if removed ∧ st.selectedId = some itemId then none else st.selectedId
({ st with items := items2, selectedId := selected2 }, removed)

/-- removeSelectedItem(trackUndo): snapshot, remove, push history on success. -/
def removeSelectedItem (c : Component) (trackUndo : Bool) : Component :=
match c.state.selectedId with
| none => c
| some sid =>
    let beforeSnapshot := createSnapshot c
    let rr := removeItem c.state sid
    let c1 := { c with state := rr.1 }
    if ¬ (rr.2 = true) then c1
    else
      { c1 with
          undoStack := if trackUndo then pushUndo c1.undoStack beforeSnapshot else c1.undoStack,
          noticeMessage := "選択画像を削除しました。" }

/-- A dropped file as the canvas core observes it: the declared media-type test
(file.type.startsWith("image/")), the outcome of readFileAsDataUrl followed by
convertToPngDataUrl (none = either step rejected; some carries the PNG data URL
and the decoded width and height), and the external identity of the item that
would be created. -/
structure DroppedFile where
  isImage : Bool
  decoded : Option (String × ℚ × ℚ)
  meta : NewItemMeta
deriving DecidableEq

/-- The for-loop body of addDroppedFiles, threading the success and failure
counters. -/
def dropLoop (center : ℚ × ℚ) (files : List DroppedFile) (st : CanvasState)
    (successCount failureCount : Nat) : CanvasState × Nat × Nat :=
match files with
| [] => (st, successCount, failureCount)
| f :: rest =>
    match f.decoded with
    | some d =>
        dropLoop center rest (addCanvasItem center f.meta st d.1 d.2.1 d.2.2 .drop)
          (successCount + 1) failureCount
    | none => dropLoop center rest st successCount (failureCount + 1)

/-- addDroppedFiles(fileList): filter to image-typed files, snapshot, ingest
each (failures counted, never aborting the batch), push one history entry when
at least one file succeeded, report counts. -/
def addDroppedFiles (center : ℚ × ℚ) (files : List DroppedFile) (c : Component) :
    Component :=
let imageFiles := files.filter (fun f => f.isImage)
if imageFiles.length = 0 then
  { c with noticeMessage := "画像ファイルをドロップしてください。" }
else
  let beforeSnapshot := createSnapshot c
  let res := dropLoop center imageFiles c.state 0 0
  let c1 := { c with state := res.1 }
  if res.2.1 = 0 then { c1 with noticeMessage := "画像を追加できませんでした。" }
  else
    let c2 := { c1 with undoStack := pushUndo c1.undoStack beforeSnapshot }
    if res.2.2 > 0 then
      { c2 with noticeMessage :=
          toString res.2.1 ++ "件追加し、" ++ toString res.2.2 ++ "件は失敗しました。" }
    else
      { c2 with noticeMessage := toString res.2.1 ++ "件の画像を追加しました。" }

/-- ClipboardImagePayload from src/types/models.ts. -/
structure ClipboardImagePayload where
  mimeType : String
  base64 : String
  width : ℚ
  height : ℚ
deriving DecidableEq

/-- addImageFromClipboard(payload). -/
def addImageFromClipboard (center : ℚ × ℚ) (meta : NewItemMeta)
    (payload : ClipboardImagePayload) (st : CanvasState) : CanvasState :=
addCanvasItem center meta st
  ("data:" ++ payload.mimeType ++ ";base64," ++ payload.base64)
  payload.width payload.height .paste

/-- handlePaste: the IPC read outcome is a parameter; the outer none models the
await throwing, some none models an empty clipboard. -/
def handlePaste (active : Bool) (center : ℚ × ℚ) (meta : NewItemMeta)
    (readOutcome : Option (Option ClipboardImagePayload)) (c : Component) : Component :=
if ¬ (active = true) then c
else
  match readOutcome with
  | none => { c with noticeMessage := "貼り付けに失敗しました。" }
  | some none => { c with noticeMessage := "クリップボードに画像が見つかりません。" }
  | some (some payload) =>
      let beforeSnapshot := createSnapshot c
      { c with state := addImageFromClipboard center meta payload c.state,
               undoStack := pushUndo c.undoStack beforeSnapshot,
               noticeMessage := "画像を追加しました。" }

/-- ClipboardWriteFailureReason from src/types/models.ts. -/
inductive ClipboardWriteFailureReason
| invalid_payload
| decode_failed
| write_failed
deriving DecidableEq

/-- ClipboardWriteResult from src/types/models.ts (reason is optional). -/
structure ClipboardWriteResult where
  ok : Bool
  reason : Option ClipboardWriteFailureReason
deriving DecidableEq

/-- getCopyFailureMessage(reason). -/
def getCopyFailureMessage : Option ClipboardWriteFailureReason → String
| some .invalid_payload => "コピー用データが不正です。"
| some .decode_failed => "画像データの変換に失敗しました。"
| some .write_failed => "OSクリップボードへの書き込みに失敗しました。"
| none => "コピーに失敗しました。"

/-- selectedItem computed ref: items.find(item.id === selectedId) ?? null. -/
def selectedItem (st : CanvasState) : Option CanvasImageItem :=
match st.selectedId with
| none => none
| some sid => st.items.find? (fun item => item.id == sid)

/-- extractBase64(dataUrl): dataUrl.indexOf(",") is -1 exactly when no comma
occurs, and slice(commaIndex + 1) is everything after the first comma; written
over the character list so it reduces in the kernel. -/
def extractBase64 (dataUrl : String) : Option String :=
if dataUrl.data.contains ',' then
  some (String.mk ((dataUrl.data.dropWhile (fun ch => ch ≠ ',')).tail))
else none

/-- copySelectedImage(): never touches state or history; the IPC write outcome
is a parameter (none models the await throwing).  The Bool result records
whether the clipboard-write contract was invoked. -/
def copySelectedImage (active : Bool) (writeOutcome : Option ClipboardWriteResult)
    (c : Component) : Component × Bool :=
if ¬ (active = true) then (c, false)
else
  match selectedItem c.state with
  | none => (c, false)
  | some item =>
      match extractBase64 item.dataUrl with
      | none => ({ c with noticeMessage := "コピー用データを作成できませんでした。" }, false)
      | some _ =>
          match writeOutcome with
          | none => ({ c with noticeMessage := "コピーに失敗しました。" }, true)
          | some result =>
              if result.ok then
                ({ c with noticeMessage := "選択画像をクリップボードへコピーしました。" }, true)
              else
                ({ c with noticeMessage := getCopyFailureMessage result.reason }, true)

/-- The fields of a KeyboardEvent the handler reads. -/
structure KeyEvent where
  ctrlKey : Bool
  metaKey : Bool
  key : String
deriving DecidableEq

/-- event.key.toLowerCase(): String.toLower written over the underlying
character list (String.map applies Char.toLower to exactly these characters;
this form reduces in the kernel). -/
def keyToLower (s : String) : String :=
String.mk (s.data.map Char.toLower)

/-- handleKeyDown: copy, undo or delete shortcut dispatch.  isTextInputFocused
(a DOM read) and props.active are parameters; the Bool result records whether
the clipboard-write contract was invoked (from the copy path). -/
def handleKeyDown (active textInputFocused : Bool)
    (writeOutcome : Option ClipboardWriteResult) (e : KeyEvent) (c : Component) :
    Component × Bool :=
if ¬ (active = true) ∨ textInputFocused = true then (c, false)
else if (e.ctrlKey || e.metaKey) && (keyToLower e.key == "c") then
  match c.state.selectedId with
  | none => (c, false)
  | some _ => copySelectedImage active writeOutcome c
else if (e.ctrlKey || e.metaKey) && (keyToLower e.key == "z") then
  if ¬ (canUndo c = true) ∨ c.interaction ≠ none then (c, false)
  else (undo c, false)
else if e.key == "Delete" then
  match c.state.selectedId with
  | none => (c, false)
  | some _ => (removeSelectedItem c true, false)
else (c, false)

/-- A rectangle as returned by the geometry engine. -/
structure Rect where
  x : ℚ
  y : ℚ
  width : ℚ
  height : ℚ
deriving DecidableEq

/-- Stage 1 of computeEdgeResize: the per-direction delta application (the
four handle.includes blocks; w overwrites the e-assignment, n overwrites the
s-assignment, exactly as the source's sequential reassignments). -/
def edgeStage1 (hE hS hW hN : Bool) (sx sy sw sh deltaX deltaY : ℚ) : Rect :=
{ x := if hW then sx + deltaX else sx,
  y := if hN then sy + deltaY else sy,
  width := if hW then sw - deltaX else (if hE then sw + deltaX else sw),
  height := if hN then sh - deltaY else (if hS then sh + deltaY else sh) }

/-- Stage 2 of computeEdgeResize: the MIN_SIZE floor with re-anchoring of the
dragged edge (the two nextWidth/nextHeight < MIN_SIZE blocks). -/
def edgeStage2 (hW hN : Bool) (sx sy sw sh : ℚ) (r : Rect) : Rect :=
{ x := if r.width < MIN_SIZE then
      (if hW then sx + (sw - MIN_SIZE) else r.x) else r.x,
  y := if r.height < MIN_SIZE then
      (if hN then sy + (sh - MIN_SIZE) else r.y) else r.y,
  width := if r.width < MIN_SIZE then MIN_SIZE else r.width,
  height := if r.height < MIN_SIZE then MIN_SIZE else r.height }

/-- Stage 3 of computeEdgeResize: the left/top clamps (the nextX < 0 and
nextY < 0 blocks, shrinking the dragged side). -/
def edgeStage3 (hW hN : Bool) (r : Rect) : Rect :=
{ x := if r.x < 0 then 0 else r.x,
  y := if r.y < 0 then 0 else r.y,
  width := if r.x < 0 then (if hW then r.width + r.x else r.width) else r.width,
  height := if r.y < 0 then (if hN then r.height + r.y else r.height) else r.height }

/-- Stage 4 of computeEdgeResize: the right/bottom overflow handling (shrink
when growing east/south, reposition otherwise). -/
def edgeStage4 (hE hS : Bool) (r : Rect) : Rect :=
{ x := if r.x + r.width > CANVAS_WIDTH then
      (if hE then r.x else CANVAS_WIDTH - r.width) else r.x,
  y := if r.y + r.height > CANVAS_HEIGHT then
      (if hS then r.y else CANVAS_HEIGHT - r.height) else r.y,
  width := if r.x + r.width > CANVAS_WIDTH then
      (if hE then CANVAS_WIDTH - r.x else r.width) else r.width,
  height := if r.y + r.height > CANVAS_HEIGHT then
      (if hS then CANVAS_HEIGHT - r.y else r.height) else r.height }

/-- computeEdgeResize before the final floor/clamp stage: the four sequential
stages above. -/
def edgeResizePre (cur : ResizeInteraction) (deltaX deltaY : ℚ) : Rect :=
edgeStage4 cur.handle.hasE cur.handle.hasS
  (edgeStage3 cur.handle.hasW cur.handle.hasN
    (edgeStage2 cur.handle.hasW cur.handle.hasN
      cur.startX cur.startY cur.startWidth cur.startHeight
      (edgeStage1 cur.handle.hasE cur.handle.hasS cur.handle.hasW cur.handle.hasN
        cur.startX cur.startY cur.startWidth cur.startHeight deltaX deltaY)))

/-- The final stage of computeEdgeResize: floor sizes at MIN_SIZE and clamp the
position, before rounding. -/
def edgeResizeFinal (r : Rect) : Rect :=
let w := max MIN_SIZE r.width
let h := max MIN_SIZE r.height
{ x := clamp r.x 0 (CANVAS_WIDTH - w), y := clamp r.y 0 (CANVAS_HEIGHT - h),
  width := w, height := h }

/-- Math.round applied to each field, as in the returned object literal. -/
def roundRect (r : Rect) : Rect :=
{ x := roundq r.x, y := roundq r.y, width := roundq r.width, height := roundq r.height }

/-- computeEdgeResize(current, deltaX, deltaY). -/
def computeEdgeResize (cur : ResizeInteraction) (deltaX deltaY : ℚ) : Rect :=
roundRect (edgeResizeFinal (edgeResizePre cur deltaX deltaY))

/-- The anchorX of computeCornerResize: the opposite corner's x. -/
def cornerAnchorX (cur : ResizeInteraction) : ℚ :=
if cur.handle.hasW then cur.startX + cur.startWidth else cur.startX

/-- The anchorY of computeCornerResize: the opposite corner's y. -/
def cornerAnchorY (cur : ResizeInteraction) : ℚ :=
if cur.handle.hasN then cur.startY + cur.startHeight else cur.startY

/-- The rawWidth of computeCornerResize: the pointer's horizontal offset from
the anchor (pointerX is the dragged corner's start x plus deltaX). -/
def cornerRawWidth (cur : ResizeInteraction) (deltaX : ℚ) : ℚ :=
let pointerX := if cur.handle.hasW then cur.startX + deltaX
  else cur.startX + cur.startWidth + deltaX
if cur.handle.hasW then cornerAnchorX cur - pointerX else pointerX - cornerAnchorX cur

/-- The rawHeight of computeCornerResize. -/
def cornerRawHeight (cur : ResizeInteraction) (deltaY : ℚ) : ℚ :=
let pointerY := if cur.handle.hasN then cur.startY + deltaY
  else cur.startY + cur.startHeight + deltaY
if cur.handle.hasN then cornerAnchorY cur - pointerY else pointerY - cornerAnchorY cur

/-- The minScale of computeCornerResize: the smallest scale keeping both sides
at or above MIN_SIZE. -/
def cornerMinScale (cur : ResizeInteraction) : ℚ :=
max (MIN_SIZE / cur.startWidth) (MIN_SIZE / cur.startHeight)

/-- The maxWidth of computeCornerResize: the room on the anchor's far side. -/
def cornerMaxWidth (cur : ResizeInteraction) : ℚ :=
if cur.handle.hasW then cornerAnchorX cur else CANVAS_WIDTH - cornerAnchorX cur

/-- The maxHeight of computeCornerResize. -/
def cornerMaxHeight (cur : ResizeInteraction) : ℚ :=
if cur.handle.hasN then cornerAnchorY cur else CANVAS_HEIGHT - cornerAnchorY cur

/-- The maxScale of computeCornerResize. -/
def cornerMaxScale (cur : ResizeInteraction) : ℚ :=
max (cornerMinScale cur)
  (min (cornerMaxWidth cur / cur.startWidth) (cornerMaxHeight cur / cur.startHeight))

/-- The clamped scale of computeCornerResize: Math.max of the two axis ratios
and minScale, clamped to [minScale, maxScale].  The source's
Number.isFinite(scale) fallback can only trigger when startWidth or
startHeight is 0 (a division by zero producing a non-finite double); ℚ has no
non-finite values and every use below constrains startWidth, startHeight ≥
MIN_SIZE, so that branch is omitted here. -/
def cornerScale (cur : ResizeInteraction) (deltaX deltaY : ℚ) : ℚ :=
clamp
  (max (max (cornerRawWidth cur deltaX / cur.startWidth)
            (cornerRawHeight cur deltaY / cur.startHeight))
       (cornerMinScale cur))
  (cornerMinScale cur) (cornerMaxScale cur)

/-- computeCornerResize(current, deltaX, deltaY): uniform scaling anchored at
the opposite corner, assembled from the staged values above exactly as the
source's sequence of consts. -/
def computeCornerResize (cur : ResizeInteraction) (deltaX deltaY : ℚ) : Rect :=
let width := max MIN_SIZE (roundq (cur.startWidth * cornerScale cur deltaX deltaY))
let height := max MIN_SIZE (roundq (cur.startHeight * cornerScale cur deltaX deltaY))
let x0 := if cur.handle.hasW then cornerAnchorX cur - width else cornerAnchorX cur
let y0 := if cur.handle.hasN then cornerAnchorY cur - height else cornerAnchorY cur
let x1 := clamp x0 0 (CANVAS_WIDTH - width)
let y1 := clamp y0 0 (CANVAS_HEIGHT - height)
{ x := roundq x1, y := roundq y1, width := width, height := height }

/-- The fields of a MouseEvent the handlers read. -/
structure MouseEvent where
  clientX : ℚ
  clientY : ℚ
  button : Nat
deriving DecidableEq

/-- stopInteraction(commitHistory): clear the session; on commit, push the
pre-session snapshot when the history-relevant state changed. -/
def stopInteraction (c : Component) (commitHistory : Bool) : Component :=
let current := c.interaction
let c1 := { c with interaction := none }
match current with
| none => c1
| some cur =>
    if ¬ (commitHistory = true) then c1
    else
      let currentSnapshot := createSnapshot c1
      if isUndoTargetChanged cur.startSnapshot currentSnapshot then
        { c1 with undoStack := pushUndo c1.undoStack cur.startSnapshot }
      else c1

/-- handlePointerUp. -/
def handlePointerUp (c : Component) : Component :=
stopInteraction c true

/-- The move branch of handlePointerMove: the rounded clamped position (size
unchanged).  The clamp bound uses the item's current width/height. -/
def moveGeometry (m : MoveInteraction) (item : CanvasImageItem) (deltaX deltaY : ℚ) :
    ℚ × ℚ :=
(roundq (clamp (m.startX + deltaX) 0 (CANVAS_WIDTH - item.width)),
 roundq (clamp (m.startY + deltaY) 0 (CANVAS_HEIGHT - item.height)))

/-- handlePointerMove(event): forward the pointer delta to the geometry engine
and replace the target item's geometry; abort the session when the item
vanished. -/
def handlePointerMove (e : MouseEvent) (c : Component) : Component :=
match c.interaction with
| none => c
| some cur =>
    match getItemById c.state cur.itemId with
    | none => stopInteraction c false
    | some item =>
        match cur with
        | .move m =>
            let deltaX := e.clientX - m.startClientX
            let deltaY := e.clientY - m.startClientY
            let g := moveGeometry m item deltaX deltaY
            let st2 := updateItem c.state m.itemId
              (fun target => { target with x := g.1, y := g.2 })
            { c with state := st2 }
        | .resize r =>
            let deltaX := e.clientX - r.startClientX
            let deltaY := e.clientY - r.startClientY
            let g := if isCornerHandle r.handle then computeCornerResize r deltaX deltaY
              else computeEdgeResize r deltaX deltaY
            let st2 := updateItem c.state r.itemId
              (fun target =>
                { target with x := g.x, y := g.y, width := g.width, height := g.height })
            { c with state := st2 }

/-- startMove(event, itemId). -/
def startMove (active : Bool) (e : MouseEvent) (itemId : Nat) (c : Component) : Component :=
if ¬ (active = true) ∨ e.button ≠ 0 then c
else
  match getItemById c.state itemId with
  | none => c
  | some item =>
      let startSnapshot := createSnapshot c
      { c with state := selectItem c.state itemId,
               interaction := some (.move
                 { itemId := itemId, startClientX := e.clientX, startClientY := e.clientY,
                   startX := item.x, startY := item.y, startSnapshot := startSnapshot }) }

/-- startResize(event, itemId, handle). -/
def startResize (active : Bool) (e : MouseEvent) (itemId : Nat) (handle : ResizeHandle)
    (c : Component) : Component :=
if ¬ (active = true) ∨ e.button ≠ 0 then c
else
  match getItemById c.state itemId with
  | none => c
  | some item =>
      let startSnapshot := createSnapshot c
      { c with state := selectItem c.state itemId,
               interaction := some (.resize
                 { itemId := itemId, handle := handle,
                   startClientX := e.clientX, startClientY := e.clientY,
                   startX := item.x, startY := item.y,
                   startWidth := item.width, startHeight := item.height,
                   startSnapshot := startSnapshot }) }

/-- clearSelection(event): background click clears the selection. -/
def clearSelection (active : Bool) (e : MouseEvent) (c : Component) : Component :=
if ¬ (active = true) ∨ e.button ≠ 0 then c
else { c with state := { c.state with selectedId := none } }

/-- The initial component: empty canvas, empty history, no session. -/
def initialComponent : Component :=
{ state := { items := [], selectedId := none, nextZIndex := 1, placementOffsetIndex := 0 },
  undoStack := [],
  noticeMessage := "Ctrl+V / D&D で画像を追加。ドラッグ移動、ハンドルで拡縮できます。",
  interaction := none }

/-- Reachability: the initial component followed by any sequence of the event
handlers the component installs (paste, drop, keyboard, the two toolbar
buttons, pointer interactions, background click, unmount teardown), with all
external inputs (DOM reads, IPC outcomes, generated ids and timestamps)
universally quantified. -/
inductive Reachable : Component → Prop
| init : Reachable initialComponent
| paste (a : Bool) (ctr : ℚ × ℚ) (m : NewItemMeta)
    (p : Option (Option ClipboardImagePayload)) {c : Component} :
    Reachable c → Reachable (handlePaste a ctr m p c)
| drop (ctr : ℚ × ℚ) (fs : List DroppedFile) {c : Component} :
    Reachable c → Reachable (addDroppedFiles ctr fs c)
| keydown (a t : Bool) (w : Option ClipboardWriteResult) (e : KeyEvent) {c : Component} :
    Reachable c → Reachable (handleKeyDown a t w e c).1
| undoClick {c : Component} : Reachable c → Reachable (undo c)
| copyClick (a : Bool) (w : Option ClipboardWriteResult) {c : Component} :
    Reachable c → Reachable (copySelectedImage a w c).1
| moveStart (a : Bool) (e : MouseEvent) (i : Nat) {c : Component} :
    Reachable c → Reachable (startMove a e i c)
| resizeStart (a : Bool) (e : MouseEvent) (i : Nat) (h : ResizeHandle) {c : Component} :
    Reachable c → Reachable (startResize a e i h c)
| pointerMove (e : MouseEvent) {c : Component} :
    Reachable c → Reachable (handlePointerMove e c)
| pointerUp {c : Component} : Reachable c → Reachable (handlePointerUp c)
| unmount {c : Component} : Reachable c → Reachable (stopInteraction c false)
| clearSel (a : Bool) (e : MouseEvent) {c : Component} :
    Reachable c → Reachable (clearSelection a e c)
| deleteSel {c : Component} : Reachable c → Reachable (removeSelectedItem c true)

/-- A rational that is an integer.  All geometry the code stores passes through
Math.round, so reachable item geometry satisfies this pointwise. -/
def IsIntQ (q : ℚ) : Prop :=
∃ n : ℤ, q = (n : ℚ)

theorem isIntQ_iff_den (q : ℚ) : IsIntQ q ↔ q.den = 1 := by
  constructor
  · rintro ⟨n, rfl⟩
    exact Rat.den_intCast n
  · intro h
    exact ⟨q.num, ((Rat.den_eq_one_iff q).mp h).symm⟩

instance : DecidablePred IsIntQ :=
fun q => decidable_of_iff (q.den = 1) (isIntQ_iff_den q).symm

theorem IsIntQ.add {a b : ℚ} (ha : IsIntQ a) (hb : IsIntQ b) : IsIntQ (a + b) := by
  obtain ⟨m, rfl⟩ := ha
  obtain ⟨n, rfl⟩ := hb
  exact ⟨m + n, by push_cast; ring⟩

theorem IsIntQ.sub {a b : ℚ} (ha : IsIntQ a) (hb : IsIntQ b) : IsIntQ (a - b) := by
  obtain ⟨m, rfl⟩ := ha
  obtain ⟨n, rfl⟩ := hb
  exact ⟨m - n, by push_cast; ring⟩

theorem IsIntQ.min {a b : ℚ} (ha : IsIntQ a) (hb : IsIntQ b) : IsIntQ (Min.min a b) := by
  obtain ⟨m, rfl⟩ := ha
  obtain ⟨n, rfl⟩ := hb
  exact ⟨Min.min m n, (Int.cast_min).symm⟩

theorem IsIntQ.max {a b : ℚ} (ha : IsIntQ a) (hb : IsIntQ b) : IsIntQ (Max.max a b) := by
  obtain ⟨m, rfl⟩ := ha
  obtain ⟨n, rfl⟩ := hb
  exact ⟨Max.max m n, (Int.cast_max).symm⟩

theorem IsIntQ.ite {a b : ℚ} (c : Prop) [Decidable c] (ha : IsIntQ a) (hb : IsIntQ b) :
    IsIntQ (if c then a else b) := by
  split_ifs
  · exact ha
  · exact hb

theorem isIntQ_zero : IsIntQ 0 :=
⟨0, by norm_num⟩

theorem isIntQ_one : IsIntQ 1 :=
⟨1, by norm_num⟩

theorem isIntQ_MIN_SIZE : IsIntQ MIN_SIZE :=
⟨24, by norm_num [MIN_SIZE]⟩

theorem isIntQ_CANVAS_WIDTH : IsIntQ CANVAS_WIDTH :=
⟨2000, by norm_num [CANVAS_WIDTH]⟩

theorem isIntQ_CANVAS_HEIGHT : IsIntQ CANVAS_HEIGHT :=
⟨2000, by norm_num [CANVAS_HEIGHT]⟩

theorem isIntQ_INITIAL_MAX_SIDE : IsIntQ INITIAL_MAX_SIDE :=
⟨420, by norm_num [INITIAL_MAX_SIDE]⟩

theorem IsIntQ.clamp {v mn mx : ℚ} (hv : IsIntQ v) (hmn : IsIntQ mn) (hmx : IsIntQ mx) :
    IsIntQ (ClipNest.clamp v mn mx) := by
  unfold ClipNest.clamp
  exact IsIntQ.ite _ hmn (hmx.min (hmn.max hv))

theorem roundq_isInt (q : ℚ) : IsIntQ (roundq q) :=
⟨round q, rfl⟩

theorem roundq_intCast (n : ℤ) : roundq ((n : ℤ) : ℚ) = (n : ℚ) := by
  unfold roundq
  rw [round_intCast]

theorem roundq_eq_self {q : ℚ} (h : IsIntQ q) : roundq q = q := by
  obtain ⟨n, rfl⟩ := h
  exact roundq_intCast n

theorem roundq_mono {a b : ℚ} (h : a ≤ b) : roundq a ≤ roundq b := by
  unfold roundq
  have : round a ≤ round b := by
    rw [round_eq, round_eq]
    exact Int.floor_mono (by linarith)
  exact_mod_cast this

theorem roundq_le_add_half (q : ℚ) : roundq q ≤ q + 1 / 2 := by
  unfold roundq
  rw [round_eq]
  exact_mod_cast Int.floor_le (q + 1 / 2)

theorem roundq_le_of_le {a b : ℚ} (h : a ≤ b) (hb : IsIntQ b) : roundq a ≤ b := by
  calc roundq a ≤ roundq b := roundq_mono h
  _ = b := roundq_eq_self hb

theorem le_roundq_of_le {a b : ℚ} (h : a ≤ b) (ha : IsIntQ a) : a ≤ roundq b := by
  calc a = roundq a := (roundq_eq_self ha).symm
  _ ≤ roundq b := roundq_mono h

theorem le_clamp (v mn mx : ℚ) : mn ≤ clamp v mn mx := by
  unfold clamp
  split_ifs with h
  · exact le_refl mn
  · exact le_min (le_of_not_lt h) (le_max_left mn v)

theorem clamp_le {mn mx : ℚ} (v : ℚ) (h : mn ≤ mx) : clamp v mn mx ≤ mx := by
  unfold clamp
  split_ifs with h2
  · linarith
  · exact min_le_left mx (Max.max mn v)

theorem clamp_eq_of {v mn mx : ℚ} (h1 : mn ≤ v) (h2 : v ≤ mx) : clamp v mn mx = v := by
  unfold clamp
  rw [if_neg (not_lt.mpr (h1.trans h2)), max_eq_right h1, min_eq_right h2]

/-- The geometry invariant of the spec: the rectangle lies inside the canvas
and respects the minimum size. -/
def GoodRect (r : Rect) : Prop :=
0 ≤ r.x ∧ 0 ≤ r.y ∧ r.x + r.width ≤ CANVAS_WIDTH ∧ r.y + r.height ≤ CANVAS_HEIGHT ∧
MIN_SIZE ≤ r.width ∧ MIN_SIZE ≤ r.height

/-- A rectangle with integer coordinates and sides. -/
def IntRect (r : Rect) : Prop :=
IsIntQ r.x ∧ IsIntQ r.y ∧ IsIntQ r.width ∧ IsIntQ r.height

instance : DecidablePred GoodRect :=
fun r => by unfold GoodRect; infer_instance

instance : DecidablePred IntRect :=
fun r => by unfold IntRect; infer_instance

/-- The rectangle an item occupies. -/
def itemRect (it : CanvasImageItem) : Rect :=
{ x := it.x, y := it.y, width := it.width, height := it.height }

/-- The start rectangle of a resize session. -/
def startRect (cur : ResizeInteraction) : Rect :=
{ x := cur.startX, y := cur.startY, width := cur.startWidth, height := cur.startHeight }

/-- C9: invoking the copy operation leaves the canvas state, the undo stack and
the interaction session unchanged for every clipboard-write outcome (success,
any classified failure, or a thrown error); only the notice message may
change. -/
theorem c9_copy_never_mutates (active : Bool) (writeOutcome : Option ClipboardWriteResult)
    (c : Component) :
    (copySelectedImage active writeOutcome c).1.state = c.state ∧
    (copySelectedImage active writeOutcome c).1.undoStack = c.undoStack ∧
    (copySelectedImage active writeOutcome c).1.interaction = c.interaction := by
  unfold copySelectedImage
  repeat' split
  all_goals exact ⟨rfl, rfl, rfl⟩

theorem pushUndo_getLast (s : List CanvasState) (x : CanvasState) :
    (pushUndo s x).getLast? = some x := by
  simp only [pushUndo, UNDO_LIMIT]
  split_ifs with h
  · have hlen : (s ++ [x]).length - 50 ≤ s.length := by
      simp only [List.length_append, List.length_singleton] at h ⊢
      omega
    rw [List.drop_append_of_le_length hlen, List.getLast?_concat]
  · exact List.getLast?_concat _

theorem pushUndo_length_pos (s : List CanvasState) (x : CanvasState) :
    0 < (pushUndo s x).length := by
  simp only [pushUndo, UNDO_LIMIT]
  split_ifs with h
  · simp only [List.length_drop, List.length_append, List.length_singleton] at h ⊢
    omega
  · simp

/-- A one-item canvas snapshot used as the pre-move state of the C2 scenario. -/
def c2Snap : CanvasState :=
{ items := [{ id := 1, source := .paste, dataUrl := "data:image/png;base64,AAAA",
              naturalWidth := 100, naturalHeight := 100, x := 0, y := 0,
              width := 100, height := 100, zIndex := 1, createdAt := 0 }],
  selectedId := some 1, nextZIndex := 2, placementOffsetIndex := 1 }

/-- The C2 scenario's move session, started from c2Snap. -/
def c2Move : MoveInteraction :=
{ itemId := 1, startClientX := 0, startClientY := 0, startX := 0, startY := 0,
  startSnapshot := c2Snap }

/-- The C2 scenario's component mid-drag: the item has moved to x = 10. -/
def c2Moved : Component :=
{ state := { items := [{ id := 1, source := .paste, dataUrl := "data:image/png;base64,AAAA",
                         naturalWidth := 100, naturalHeight := 100, x := 10, y := 0,
                         width := 100, height := 100, zIndex := 1, createdAt := 0 }],
             selectedId := some 1, nextZIndex := 2, placementOffsetIndex := 1 },
  undoStack := [], noticeMessage := "", interaction := some (.move c2Move) }

/-- C2: ending a drag session that changed the state pushes the pre-session
snapshot, and calling undo immediately afterwards pops that most recent
snapshot and replaces the live state with it wholesale, restoring the moved
item's exact pre-move position and size. -/
theorem c2_undo_restores_committed_move (c : Component) (m : MoveInteraction)
    (hSession : c.interaction = some (.move m))
    (hChanged : isUndoTargetChanged m.startSnapshot c.state = true) :
    (stopInteraction c true).undoStack = pushUndo c.undoStack m.startSnapshot ∧
    (stopInteraction c true).undoStack.getLast? = some m.startSnapshot ∧
    undo (stopInteraction c true) =
      { state := m.startSnapshot,
        undoStack := (stopInteraction c true).undoStack.dropLast,
        noticeMessage := "元に戻しました。",
        interaction := none } := by
  have h1 : stopInteraction c true =
      { c with interaction := none,
               undoStack := pushUndo c.undoStack m.startSnapshot } := by
    unfold stopInteraction
    rw [hSession]
    simp only [Interaction.startSnapshot, createSnapshot]
    rw [if_neg (by simp), if_pos hChanged]
  refine ⟨by rw [h1], by rw [h1]; exact pushUndo_getLast c.undoStack m.startSnapshot, ?_⟩
  rw [h1]
  unfold undo
  rw [if_neg]
  · rw [pushUndo_getLast]
    rfl
  · have := pushUndo_length_pos c.undoStack m.startSnapshot
    simp [canUndo, this]

/-- C2 witness: the theorem applied to the concrete moved-by-10-pixels
scenario. -/
theorem c2_witness :
    isUndoTargetChanged c2Move.startSnapshot c2Moved.state = true ∧
    ((stopInteraction c2Moved true).undoStack = pushUndo c2Moved.undoStack c2Move.startSnapshot ∧
     (stopInteraction c2Moved true).undoStack.getLast? = some c2Move.startSnapshot ∧
     undo (stopInteraction c2Moved true) =
       { state := c2Move.startSnapshot,
         undoStack := (stopInteraction c2Moved true).undoStack.dropLast,
         noticeMessage := "元に戻しました。",
         interaction := none }) :=
⟨by decide, c2_undo_restores_committed_move c2Moved c2Move rfl (by decide)⟩

theorem init_le_foldl_max (l : List CanvasImageItem) (a : ℤ) :
    a ≤ l.foldl (fun maxZ item => Max.max maxZ item.zIndex) a := by
  induction l generalizing a with
  | nil => exact le_refl a
  | cons hd tl ih => exact le_trans (le_max_left a hd.zIndex) (ih (Max.max a hd.zIndex))

theorem le_foldl_max {l : List CanvasImageItem} {it : CanvasImageItem} (hmem : it ∈ l)
    (a : ℤ) : it.zIndex ≤ l.foldl (fun maxZ item => Max.max maxZ item.zIndex) a := by
  induction l generalizing a with
  | nil => cases hmem
  | cons hd tl ih =>
      rcases List.mem_cons.mp hmem with h | h
      · subst h
        exact le_trans (le_max_right a it.zIndex)
          (init_le_foldl_max tl (Max.max a it.zIndex))
      · exact ih h (Max.max a hd.zIndex)

theorem foldl_max_le {l : List CanvasImageItem} {m : ℤ} (a : ℤ) (ha : a ≤ m)
    (h : ∀ it ∈ l, it.zIndex ≤ m) :
    l.foldl (fun maxZ item => Max.max maxZ item.zIndex) a ≤ m := by
  induction l generalizing a with
  | nil => exact ha
  | cons hd tl ih =>
      exact ih (Max.max a hd.zIndex)
        (max_le ha (h hd (List.mem_cons_self hd tl)))
        (fun it hit => h it (List.mem_cons_of_mem hd hit))

/-- C7: selecting an item whose z-index is already the maximum among current
items changes no item and does not consume the z-index counter; selecting an
item whose z-index is not maximal assigns it the current nextZIndex and
increments the counter by exactly one, leaving every other item's z-index
unchanged. -/
theorem c7_select_z_index (st : CanvasState) (itemId : Nat) (item : CanvasImageItem)
    (hFind : getItemById st itemId = some item) (hz : 0 ≤ item.zIndex) :
    ((∀ it ∈ st.items, it.zIndex ≤ item.zIndex) →
       selectItem st itemId = { st with selectedId := some itemId }) ∧
    ((∃ it ∈ st.items, item.zIndex < it.zIndex) →
       selectItem st itemId =
         { st with selectedId := some itemId,
                   nextZIndex := st.nextZIndex + 1,
                   items := st.items.map (fun it =>
                     if it.id = itemId then { it with zIndex := st.nextZIndex } else it) }) := by
  have hFind2 : getItemById { st with selectedId := some itemId } itemId = some item := hFind
  constructor
  · intro hTop
    have hle : st.items.foldl (fun maxZ item => Max.max maxZ item.zIndex) 0 ≤ item.zIndex :=
      foldl_max_le 0 hz hTop
    unfold selectItem bringToFront
    simp only [hFind2]
    rw [if_pos hle]
  · rintro ⟨other, hmem, hlt⟩
    have hgt : ¬ (st.items.foldl (fun maxZ item => Max.max maxZ item.zIndex) 0 ≤ item.zIndex) :=
      not_le.mpr (lt_of_lt_of_le hlt (le_foldl_max hmem 0))
    unfold selectItem bringToFront
    simp only [hFind2]
    rw [if_neg hgt]
    rfl

/-- The front item (z = 2) of the C7 scenario. -/
def c7ItemTop : CanvasImageItem :=
{ id := 1, source := .paste, dataUrl := "d", naturalWidth := 1, naturalHeight := 1,
  x := 0, y := 0, width := 24, height := 24, zIndex := 2, createdAt := 0 }

/-- The back item (z = 1) of the C7 scenario. -/
def c7ItemLow : CanvasImageItem :=
{ id := 2, source := .paste, dataUrl := "d", naturalWidth := 1, naturalHeight := 1,
  x := 0, y := 0, width := 24, height := 24, zIndex := 1, createdAt := 1 }

/-- The two-item state of the C7 scenario. -/
def c7State : CanvasState :=
{ items := [c7ItemTop, c7ItemLow], selectedId := none, nextZIndex := 3,
  placementOffsetIndex := 0 }

/-- C7 witness: the theorem applied to the concrete two-item state, selecting
the already-topmost item. -/
theorem c7_witness :
    getItemById c7State 1 = some c7ItemTop ∧ (0 : ℤ) ≤ c7ItemTop.zIndex ∧
    (((∀ it ∈ c7State.items, it.zIndex ≤ c7ItemTop.zIndex) →
        selectItem c7State 1 = { c7State with selectedId := some 1 }) ∧
     ((∃ it ∈ c7State.items, c7ItemTop.zIndex < it.zIndex) →
        selectItem c7State 1 =
          { c7State with selectedId := some 1,
                         nextZIndex := c7State.nextZIndex + 1,
                         items := c7State.items.map (fun it =>
                           if it.id = 1 then { it with zIndex := c7State.nextZIndex } else it) })) :=
⟨by decide, by decide, c7_select_z_index c7State 1 c7ItemTop (by decide) (by decide)⟩

/-- C5: the placement allocator places the candidate centred on the viewport
center offset diagonally by offsetIndex steps of 24; an out-of-bounds
candidate resets the offset to 0 and recomputes at the center exactly; the
stored counter becomes the used offset plus one in both cases; the final
position is the clamped candidate (the exact candidate when it is in bounds).
Concretely: two 100-by-100 adds centred at (1000, 1000) land at (950, 950) and
(974, 974) — exactly (24, 24) apart — and an add whose candidate overflows the
canvas lands at the exact clamped center with the counter reset to 1. -/
theorem c5_placement_allocator (center : ℚ × ℚ) (st : CanvasState) (width height : ℚ) :
    (isOutOfBounds (placementCalc center width height st.placementOffsetIndex).1
        (placementCalc center width height st.placementOffsetIndex).2 width height = false →
      (resolveInitialPlacement center st width height).1 =
        placementCalc center width height st.placementOffsetIndex ∧
      (resolveInitialPlacement center st width height).2 =
        { st with placementOffsetIndex := st.placementOffsetIndex + 1 }) ∧
    (isOutOfBounds (placementCalc center width height st.placementOffsetIndex).1
        (placementCalc center width height st.placementOffsetIndex).2 width height = true →
      (resolveInitialPlacement center st width height).1 =
        (clamp (placementCalc center width height 0).1 0 (CANVAS_WIDTH - width),
         clamp (placementCalc center width height 0).2 0 (CANVAS_HEIGHT - height)) ∧
      (resolveInitialPlacement center st width height).2 =
        { st with placementOffsetIndex := 1 }) ∧
    ((resolveInitialPlacement (1000, 1000) initialComponent.state 100 100).1 = (950, 950) ∧
     (resolveInitialPlacement (1000, 1000) initialComponent.state 100 100).2.placementOffsetIndex = 1 ∧
     (resolveInitialPlacement (1000, 1000)
        (resolveInitialPlacement (1000, 1000) initialComponent.state 100 100).2 100 100).1 =
       (974, 974) ∧
     (974 : ℚ) - 950 = 24 ∧
     (resolveInitialPlacement (1990, 1990)
        { initialComponent.state with placementOffsetIndex := 3 } 100 100).1 = (1900, 1900) ∧
     clamp (placementCalc (1990, 1990) 100 100 0).1 0 (CANVAS_WIDTH - 100) = 1900 ∧
     (resolveInitialPlacement (1990, 1990)
        { initialComponent.state with placementOffsetIndex := 3 } 100 100).2.placementOffsetIndex
       = 1) := by
  refine ⟨?_, ?_, ?_⟩
  · intro h
    have hb : ¬ ((placementCalc center width height st.placementOffsetIndex).1 < 0) ∧
        ¬ ((placementCalc center width height st.placementOffsetIndex).2 < 0) ∧
        ¬ ((placementCalc center width height st.placementOffsetIndex).1 + width > CANVAS_WIDTH) ∧
        ¬ ((placementCalc center width height st.placementOffsetIndex).2 + height > CANVAS_HEIGHT) := by
      simpa [isOutOfBounds, decide_eq_false_iff_not, not_or, and_assoc] using h
    obtain ⟨h1, h2, h3, h4⟩ := hb
    simp only [resolveInitialPlacement, h, Bool.false_eq_true, if_false]
    refine ⟨?_, trivial⟩
    rw [clamp_eq_of (le_of_not_lt h1) (by push_neg at h3; linarith),
        clamp_eq_of (le_of_not_lt h2) (by push_neg at h4; linarith)]
  · intro h
    simp only [resolveInitialPlacement, h, if_true]
    exact ⟨trivial, trivial⟩
  · refine ⟨?_, ?_, ?_, by norm_num, ?_, ?_, ?_⟩ <;>
      norm_num [resolveInitialPlacement, placementCalc, isOutOfBounds, clamp, roundq, round_eq,
        initialComponent, CANVAS_WIDTH, CANVAS_HEIGHT, PLACEMENT_OFFSET_STEP]

/-- C5 witness: the theorem applied to a 100-by-100 add centred at
(1000, 1000) from the initial state, an in-bounds candidate. -/
theorem c5_witness :
    isOutOfBounds (placementCalc (1000, 1000) 100 100
        initialComponent.state.placementOffsetIndex).1
      (placementCalc (1000, 1000) 100 100 initialComponent.state.placementOffsetIndex).2
      100 100 = false ∧
    ((resolveInitialPlacement (1000, 1000) initialComponent.state 100 100).1 =
       placementCalc (1000, 1000) 100 100 initialComponent.state.placementOffsetIndex ∧
     (resolveInitialPlacement (1000, 1000) initialComponent.state 100 100).2 =
       { initialComponent.state with
           placementOffsetIndex := initialComponent.state.placementOffsetIndex + 1 }) := by
  have hoob : isOutOfBounds (placementCalc (1000, 1000) 100 100
      initialComponent.state.placementOffsetIndex).1
      (placementCalc (1000, 1000) 100 100 initialComponent.state.placementOffsetIndex).2
      100 100 = false := by
    norm_num [placementCalc, isOutOfBounds, roundq, round_eq, initialComponent,
      CANVAS_WIDTH, CANVAS_HEIGHT, PLACEMENT_OFFSET_STEP]
  exact ⟨hoob, (c5_placement_allocator (1000, 1000) initialComponent.state 100 100).1 hoob⟩

theorem MIN_SIZE_pos : (0 : ℚ) < MIN_SIZE := by norm_num [MIN_SIZE]

theorem goodRect_start (cur : ResizeInteraction) (hGood : GoodRect (startRect cur)) :
    0 ≤ cur.startX ∧ 0 ≤ cur.startY ∧ cur.startX + cur.startWidth ≤ CANVAS_WIDTH ∧
    cur.startY + cur.startHeight ≤ CANVAS_HEIGHT ∧ MIN_SIZE ≤ cur.startWidth ∧
    MIN_SIZE ≤ cur.startHeight := hGood

theorem intRect_start (cur : ResizeInteraction) (hInt : IntRect (startRect cur)) :
    IsIntQ cur.startX ∧ IsIntQ cur.startY ∧ IsIntQ cur.startWidth ∧ IsIntQ cur.startHeight :=
  hInt

theorem corner_anchorX_facts (cur : ResizeInteraction) (hGood : GoodRect (startRect cur)) :
    0 ≤ cornerAnchorX cur ∧ cornerAnchorX cur ≤ CANVAS_WIDTH := by
  obtain ⟨hx, hy, hxw, hyh, hw, hh⟩ := goodRect_start cur hGood
  have hw0 : 0 < cur.startWidth := lt_of_lt_of_le MIN_SIZE_pos hw
  unfold cornerAnchorX
  split_ifs <;> constructor <;> linarith

theorem corner_anchorY_facts (cur : ResizeInteraction) (hGood : GoodRect (startRect cur)) :
    0 ≤ cornerAnchorY cur ∧ cornerAnchorY cur ≤ CANVAS_HEIGHT := by
  obtain ⟨hx, hy, hxw, hyh, hw, hh⟩ := goodRect_start cur hGood
  have hh0 : 0 < cur.startHeight := lt_of_lt_of_le MIN_SIZE_pos hh
  unfold cornerAnchorY
  split_ifs <;> constructor <;> linarith

theorem corner_anchorX_int (cur : ResizeInteraction) (hInt : IntRect (startRect cur)) :
    IsIntQ (cornerAnchorX cur) := by
  obtain ⟨ix, iy, iw, ih⟩ := intRect_start cur hInt
  unfold cornerAnchorX
  exact IsIntQ.ite _ (ix.add iw) ix

theorem corner_anchorY_int (cur : ResizeInteraction) (hInt : IntRect (startRect cur)) :
    IsIntQ (cornerAnchorY cur) := by
  obtain ⟨ix, iy, iw, ih⟩ := intRect_start cur hInt
  unfold cornerAnchorY
  exact IsIntQ.ite _ (iy.add ih) iy

theorem corner_maxWidth_facts (cur : ResizeInteraction) (hGood : GoodRect (startRect cur)) :
    cur.startWidth ≤ cornerMaxWidth cur ∧ cornerMaxWidth cur ≤ CANVAS_WIDTH := by
  obtain ⟨hx, hy, hxw, hyh, hw, hh⟩ := goodRect_start cur hGood
  unfold cornerMaxWidth cornerAnchorX
  split_ifs <;> constructor <;> linarith

theorem corner_maxHeight_facts (cur : ResizeInteraction) (hGood : GoodRect (startRect cur)) :
    cur.startHeight ≤ cornerMaxHeight cur ∧ cornerMaxHeight cur ≤ CANVAS_HEIGHT := by
  obtain ⟨hx, hy, hxw, hyh, hw, hh⟩ := goodRect_start cur hGood
  unfold cornerMaxHeight cornerAnchorY
  split_ifs <;> constructor <;> linarith

theorem corner_maxWidth_int (cur : ResizeInteraction) (hInt : IntRect (startRect cur)) :
    IsIntQ (cornerMaxWidth cur) := by
  unfold cornerMaxWidth
  exact IsIntQ.ite _ (corner_anchorX_int cur hInt)
    (isIntQ_CANVAS_WIDTH.sub (corner_anchorX_int cur hInt))

theorem corner_maxHeight_int (cur : ResizeInteraction) (hInt : IntRect (startRect cur)) :
    IsIntQ (cornerMaxHeight cur) := by
  unfold cornerMaxHeight
  exact IsIntQ.ite _ (corner_anchorY_int cur hInt)
    (isIntQ_CANVAS_HEIGHT.sub (corner_anchorY_int cur hInt))

theorem corner_minScale_le_ratios (cur : ResizeInteraction) (hGood : GoodRect (startRect cur)) :
    cornerMinScale cur ≤
      min (cornerMaxWidth cur / cur.startWidth) (cornerMaxHeight cur / cur.startHeight) := by
  obtain ⟨hx, hy, hxw, hyh, hw, hh⟩ := goodRect_start cur hGood
  have hw0 : 0 < cur.startWidth := lt_of_lt_of_le MIN_SIZE_pos hw
  have hh0 : 0 < cur.startHeight := lt_of_lt_of_le MIN_SIZE_pos hh
  have h1 : cornerMinScale cur ≤ 1 := by
    unfold cornerMinScale
    exact max_le ((div_le_one hw0).mpr hw) ((div_le_one hh0).mpr hh)
  have h2 : (1 : ℚ) ≤
      min (cornerMaxWidth cur / cur.startWidth) (cornerMaxHeight cur / cur.startHeight) :=
    le_min ((one_le_div hw0).mpr (corner_maxWidth_facts cur hGood).1)
      ((one_le_div hh0).mpr (corner_maxHeight_facts cur hGood).1)
  exact h1.trans h2

theorem corner_maxScale_eq (cur : ResizeInteraction) (hGood : GoodRect (startRect cur)) :
    cornerMaxScale cur =
      min (cornerMaxWidth cur / cur.startWidth) (cornerMaxHeight cur / cur.startHeight) := by
  unfold cornerMaxScale
  exact max_eq_right (corner_minScale_le_ratios cur hGood)

theorem cornerScale_ge (cur : ResizeInteraction) (deltaX deltaY : ℚ) :
    cornerMinScale cur ≤ cornerScale cur deltaX deltaY :=
  le_clamp _ _ _

theorem cornerScale_le (cur : ResizeInteraction) (deltaX deltaY : ℚ)
    (hGood : GoodRect (startRect cur)) :
    cornerScale cur deltaX deltaY ≤
      min (cornerMaxWidth cur / cur.startWidth) (cornerMaxHeight cur / cur.startHeight) := by
  have hmnmx : cornerMinScale cur ≤ cornerMaxScale cur := le_max_left _ _
  have h : cornerScale cur deltaX deltaY ≤ cornerMaxScale cur := clamp_le _ hmnmx
  rw [corner_maxScale_eq cur hGood] at h
  exact h

theorem corner_scaled_width_le (cur : ResizeInteraction) (deltaX deltaY : ℚ)
    (hGood : GoodRect (startRect cur)) :
    cur.startWidth * cornerScale cur deltaX deltaY ≤ cornerMaxWidth cur := by
  obtain ⟨hx, hy, hxw, hyh, hw, hh⟩ := goodRect_start cur hGood
  have hw0 : 0 < cur.startWidth := lt_of_lt_of_le MIN_SIZE_pos hw
  have h1 : cornerScale cur deltaX deltaY ≤ cornerMaxWidth cur / cur.startWidth :=
    (cornerScale_le cur deltaX deltaY hGood).trans (min_le_left _ _)
  calc cur.startWidth * cornerScale cur deltaX deltaY
      ≤ cur.startWidth * (cornerMaxWidth cur / cur.startWidth) :=
        mul_le_mul_of_nonneg_left h1 (le_of_lt hw0)
  _ = cornerMaxWidth cur := by
        rw [mul_comm, div_mul_cancel₀ _ (ne_of_gt hw0)]

theorem corner_scaled_height_le (cur : ResizeInteraction) (deltaX deltaY : ℚ)
    (hGood : GoodRect (startRect cur)) :
    cur.startHeight * cornerScale cur deltaX deltaY ≤ cornerMaxHeight cur := by
  obtain ⟨hx, hy, hxw, hyh, hw, hh⟩ := goodRect_start cur hGood
  have hh0 : 0 < cur.startHeight := lt_of_lt_of_le MIN_SIZE_pos hh
  have h1 : cornerScale cur deltaX deltaY ≤ cornerMaxHeight cur / cur.startHeight :=
    (cornerScale_le cur deltaX deltaY hGood).trans (min_le_right _ _)
  calc cur.startHeight * cornerScale cur deltaX deltaY
      ≤ cur.startHeight * (cornerMaxHeight cur / cur.startHeight) :=
        mul_le_mul_of_nonneg_left h1 (le_of_lt hh0)
  _ = cornerMaxHeight cur := by
        rw [mul_comm, div_mul_cancel₀ _ (ne_of_gt hh0)]

theorem corner_min_size_le_scaled_width (cur : ResizeInteraction) (deltaX deltaY : ℚ)
    (hGood : GoodRect (startRect cur)) :
    MIN_SIZE ≤ cur.startWidth * cornerScale cur deltaX deltaY := by
  obtain ⟨hx, hy, hxw, hyh, hw, hh⟩ := goodRect_start cur hGood
  have hw0 : 0 < cur.startWidth := lt_of_lt_of_le MIN_SIZE_pos hw
  have h1 : MIN_SIZE / cur.startWidth ≤ cornerScale cur deltaX deltaY :=
    le_trans (le_max_left _ _) (cornerScale_ge cur deltaX deltaY)
  calc MIN_SIZE = cur.startWidth * (MIN_SIZE / cur.startWidth) := by
        rw [mul_comm, div_mul_cancel₀ _ (ne_of_gt hw0)]
  _ ≤ cur.startWidth * cornerScale cur deltaX deltaY :=
        mul_le_mul_of_nonneg_left h1 (le_of_lt hw0)

theorem corner_min_size_le_scaled_height (cur : ResizeInteraction) (deltaX deltaY : ℚ)
    (hGood : GoodRect (startRect cur)) :
    MIN_SIZE ≤ cur.startHeight * cornerScale cur deltaX deltaY := by
  obtain ⟨hx, hy, hxw, hyh, hw, hh⟩ := goodRect_start cur hGood
  have hh0 : 0 < cur.startHeight := lt_of_lt_of_le MIN_SIZE_pos hh
  have h1 : MIN_SIZE / cur.startHeight ≤ cornerScale cur deltaX deltaY :=
    le_trans (le_max_right _ _) (cornerScale_ge cur deltaX deltaY)
  calc MIN_SIZE = cur.startHeight * (MIN_SIZE / cur.startHeight) := by
        rw [mul_comm, div_mul_cancel₀ _ (ne_of_gt hh0)]
  _ ≤ cur.startHeight * cornerScale cur deltaX deltaY :=
        mul_le_mul_of_nonneg_left h1 (le_of_lt hh0)

theorem corner_bounds (cur : ResizeInteraction) (deltaX deltaY : ℚ)
    (hGood : GoodRect (startRect cur)) (hInt : IntRect (startRect cur)) :
    GoodRect (computeCornerResize cur deltaX deltaY) ∧
    IntRect (computeCornerResize cur deltaX deltaY) := by
  obtain ⟨hx, hy, hxw, hyh, hw, hh⟩ := goodRect_start cur hGood
  obtain ⟨ix, iy, iw, ih⟩ := intRect_start cur hInt
  have hW1 : MIN_SIZE ≤
      max MIN_SIZE (roundq (cur.startWidth * cornerScale cur deltaX deltaY)) :=
    le_max_left _ _
  have hH1 : MIN_SIZE ≤
      max MIN_SIZE (roundq (cur.startHeight * cornerScale cur deltaX deltaY)) :=
    le_max_left _ _
  have hW2 : max MIN_SIZE (roundq (cur.startWidth * cornerScale cur deltaX deltaY)) ≤
      cornerMaxWidth cur :=
    max_le (hw.trans (corner_maxWidth_facts cur hGood).1)
      (roundq_le_of_le (corner_scaled_width_le cur deltaX deltaY hGood)
        (corner_maxWidth_int cur hInt))
  have hH2 : max MIN_SIZE (roundq (cur.startHeight * cornerScale cur deltaX deltaY)) ≤
      cornerMaxHeight cur :=
    max_le (hh.trans (corner_maxHeight_facts cur hGood).1)
      (roundq_le_of_le (corner_scaled_height_le cur deltaX deltaY hGood)
        (corner_maxHeight_int cur hInt))
  have hWW : max MIN_SIZE (roundq (cur.startWidth * cornerScale cur deltaX deltaY)) ≤
      CANVAS_WIDTH := hW2.trans (corner_maxWidth_facts cur hGood).2
  have hHH : max MIN_SIZE (roundq (cur.startHeight * cornerScale cur deltaX deltaY)) ≤
      CANVAS_HEIGHT := hH2.trans (corner_maxHeight_facts cur hGood).2
  have hIW : IsIntQ (max MIN_SIZE (roundq (cur.startWidth * cornerScale cur deltaX deltaY))) :=
    isIntQ_MIN_SIZE.max (roundq_isInt _)
  have hIH : IsIntQ (max MIN_SIZE (roundq (cur.startHeight * cornerScale cur deltaX deltaY))) :=
    isIntQ_MIN_SIZE.max (roundq_isInt _)
  have hIx0 : IsIntQ (if cur.handle.hasW then
      cornerAnchorX cur - max MIN_SIZE (roundq (cur.startWidth * cornerScale cur deltaX deltaY))
      else cornerAnchorX cur) :=
    IsIntQ.ite _ ((corner_anchorX_int cur hInt).sub hIW) (corner_anchorX_int cur hInt)
  have hIy0 : IsIntQ (if cur.handle.hasN then
      cornerAnchorY cur - max MIN_SIZE (roundq (cur.startHeight * cornerScale cur deltaX deltaY))
      else cornerAnchorY cur) :=
    IsIntQ.ite _ ((corner_anchorY_int cur hInt).sub hIH) (corner_anchorY_int cur hInt)
  have hIx1 : IsIntQ (clamp (if cur.handle.hasW then
      cornerAnchorX cur - max MIN_SIZE (roundq (cur.startWidth * cornerScale cur deltaX deltaY))
      else cornerAnchorX cur) 0
      (CANVAS_WIDTH - max MIN_SIZE (roundq (cur.startWidth * cornerScale cur deltaX deltaY)))) :=
    hIx0.clamp isIntQ_zero (isIntQ_CANVAS_WIDTH.sub hIW)
  have hIy1 : IsIntQ (clamp (if cur.handle.hasN then
      cornerAnchorY cur - max MIN_SIZE (roundq (cur.startHeight * cornerScale cur deltaX deltaY))
      else cornerAnchorY cur) 0
      (CANVAS_HEIGHT - max MIN_SIZE (roundq (cur.startHeight * cornerScale cur deltaX deltaY)))) :=
    hIy0.clamp isIntQ_zero (isIntQ_CANVAS_HEIGHT.sub hIH)
  have hxb := clamp_le (if cur.handle.hasW then
      cornerAnchorX cur -
        max MIN_SIZE (roundq (cur.startWidth * cornerScale cur deltaX deltaY))
      else cornerAnchorX cur)
    (by linarith :
      (0 : ℚ) ≤ CANVAS_WIDTH -
        max MIN_SIZE (roundq (cur.startWidth * cornerScale cur deltaX deltaY)))
  have hyb := clamp_le (if cur.handle.hasN then
      cornerAnchorY cur -
        max MIN_SIZE (roundq (cur.startHeight * cornerScale cur deltaX deltaY))
      else cornerAnchorY cur)
    (by linarith :
      (0 : ℚ) ≤ CANVAS_HEIGHT -
        max MIN_SIZE (roundq (cur.startHeight * cornerScale cur deltaX deltaY)))
  have hGoal : GoodRect
      { x := roundq (clamp (if cur.handle.hasW then
            cornerAnchorX cur -
              max MIN_SIZE (roundq (cur.startWidth * cornerScale cur deltaX deltaY))
            else cornerAnchorX cur) 0
            (CANVAS_WIDTH - max MIN_SIZE (roundq (cur.startWidth * cornerScale cur deltaX deltaY)))),
        y := roundq (clamp (if cur.handle.hasN then
            cornerAnchorY cur -
              max MIN_SIZE (roundq (cur.startHeight * cornerScale cur deltaX deltaY))
            else cornerAnchorY cur) 0
            (CANVAS_HEIGHT - max MIN_SIZE (roundq (cur.startHeight * cornerScale cur deltaX deltaY)))),
        width := max MIN_SIZE (roundq (cur.startWidth * cornerScale cur deltaX deltaY)),
        height := max MIN_SIZE (roundq (cur.startHeight * cornerScale cur deltaX deltaY)) } := by
    rw [GoodRect]
    rw [roundq_eq_self hIx1, roundq_eq_self hIy1]
    refine ⟨le_clamp _ _ _, le_clamp _ _ _, by linarith, by linarith, hW1, hH1⟩
  exact ⟨hGoal, roundq_isInt _, roundq_isInt _, hIW, hIH⟩

theorem clamp_max_left (v mn mx : ℚ) (h : mn ≤ mx) :
    clamp (max v mn) mn (max mn mx) = clamp v mn mx := by
  rw [max_eq_right h]
  unfold clamp
  have h2 : ¬ (mx < mn) := not_lt.mpr h
  rw [if_neg h2, if_neg h2]
  congr 1
  rw [max_comm v mn, ← max_assoc, max_self]

theorem cornerScale_eq_spec (cur : ResizeInteraction) (deltaX deltaY : ℚ)
    (hGood : GoodRect (startRect cur)) :
    cornerScale cur deltaX deltaY =
      clamp (max (cornerRawWidth cur deltaX / cur.startWidth)
                 (cornerRawHeight cur deltaY / cur.startHeight))
        (cornerMinScale cur)
        (min (cornerMaxWidth cur / cur.startWidth) (cornerMaxHeight cur / cur.startHeight)) := by
  unfold cornerScale cornerMaxScale
  exact clamp_max_left _ _ _ (corner_minScale_le_ratios cur hGood)

/-- C4: a corner resize yields width = round(startWidth × s) and height =
round(startHeight × s) for the single scale factor s — the larger of the two
axis ratios clamped between the minimum scale keeping both sides at or above
MIN_SIZE and the maximum scale keeping the rectangle inside the canvas on the
anchor's far side — so the result's aspect is the start aspect up to rounding
each side to an integer. -/
theorem c4_corner_preserves_aspect (cur : ResizeInteraction) (deltaX deltaY : ℚ)
    (hc : isCornerHandle cur.handle = true) (hGood : GoodRect (startRect cur)) :
    (computeCornerResize cur deltaX deltaY).width =
      roundq (cur.startWidth *
        clamp (max (cornerRawWidth cur deltaX / cur.startWidth)
                   (cornerRawHeight cur deltaY / cur.startHeight))
          (cornerMinScale cur)
          (min (cornerMaxWidth cur / cur.startWidth)
               (cornerMaxHeight cur / cur.startHeight))) ∧
    (computeCornerResize cur deltaX deltaY).height =
      roundq (cur.startHeight *
        clamp (max (cornerRawWidth cur deltaX / cur.startWidth)
                   (cornerRawHeight cur deltaY / cur.startHeight))
          (cornerMinScale cur)
          (min (cornerMaxWidth cur / cur.startWidth)
               (cornerMaxHeight cur / cur.startHeight))) := by
  rw [← cornerScale_eq_spec cur deltaX deltaY hGood]
  constructor
  · show max MIN_SIZE (roundq (cur.startWidth * cornerScale cur deltaX deltaY)) = _
    exact max_eq_right
      (le_roundq_of_le (corner_min_size_le_scaled_width cur deltaX deltaY hGood) isIntQ_MIN_SIZE)
  · show max MIN_SIZE (roundq (cur.startHeight * cornerScale cur deltaX deltaY)) = _
    exact max_eq_right
      (le_roundq_of_le (corner_min_size_le_scaled_height cur deltaX deltaY hGood) isIntQ_MIN_SIZE)

/-- The concrete south-east corner resize of the C4 witness: a 100-by-50 item
at (10, 20), dragged by (100, 10). -/
def c4Resize : ResizeInteraction :=
{ itemId := 1, handle := .se, startClientX := 0, startClientY := 0,
  startX := 10, startY := 20, startWidth := 100, startHeight := 50,
  startSnapshot := { items := [], selectedId := none, nextZIndex := 1,
                     placementOffsetIndex := 0 } }

/-- C4 witness: the theorem applied to the concrete south-east resize. -/
theorem c4_witness :
    isCornerHandle c4Resize.handle = true ∧ GoodRect (startRect c4Resize) ∧
    ((computeCornerResize c4Resize 100 10).width =
       roundq (c4Resize.startWidth *
         clamp (max (cornerRawWidth c4Resize 100 / c4Resize.startWidth)
                    (cornerRawHeight c4Resize 10 / c4Resize.startHeight))
           (cornerMinScale c4Resize)
           (min (cornerMaxWidth c4Resize / c4Resize.startWidth)
                (cornerMaxHeight c4Resize / c4Resize.startHeight))) ∧
     (computeCornerResize c4Resize 100 10).height =
       roundq (c4Resize.startHeight *
         clamp (max (cornerRawWidth c4Resize 100 / c4Resize.startWidth)
                    (cornerRawHeight c4Resize 10 / c4Resize.startHeight))
           (cornerMinScale c4Resize)
           (min (cornerMaxWidth c4Resize / c4Resize.startWidth)
                (cornerMaxHeight c4Resize / c4Resize.startHeight)))) :=
⟨rfl, by norm_num [GoodRect, startRect, c4Resize, MIN_SIZE, CANVAS_WIDTH, CANVAS_HEIGHT],
 c4_corner_preserves_aspect c4Resize 100 10 rfl
   (by norm_num [GoodRect, startRect, c4Resize, MIN_SIZE, CANVAS_WIDTH, CANVAS_HEIGHT])⟩

theorem edgeStage1_sum_x {hE hS hW hN : Bool} {sx sy sw sh deltaX deltaY : ℚ}
    (h : hW = true) :
    (edgeStage1 hE hS hW hN sx sy sw sh deltaX deltaY).x +
      (edgeStage1 hE hS hW hN sx sy sw sh deltaX deltaY).width = sx + sw := by
  simp only [edgeStage1, h, if_true]
  ring

theorem edgeStage1_sum_y {hE hS hW hN : Bool} {sx sy sw sh deltaX deltaY : ℚ}
    (h : hN = true) :
    (edgeStage1 hE hS hW hN sx sy sw sh deltaX deltaY).y +
      (edgeStage1 hE hS hW hN sx sy sw sh deltaX deltaY).height = sy + sh := by
  simp only [edgeStage1, h, if_true]
  ring

theorem edgeStage1_x {hE hS hW hN : Bool} {sx sy sw sh deltaX deltaY : ℚ}
    (h : hW = false) :
    (edgeStage1 hE hS hW hN sx sy sw sh deltaX deltaY).x = sx := by
  simp [edgeStage1, h]

theorem edgeStage1_y {hE hS hW hN : Bool} {sx sy sw sh deltaX deltaY : ℚ}
    (h : hN = false) :
    (edgeStage1 hE hS hW hN sx sy sw sh deltaX deltaY).y = sy := by
  simp [edgeStage1, h]

theorem edgeStage1_w {hE hS hW hN : Bool} {sx sy sw sh deltaX deltaY : ℚ}
    (h : hW = false) (h2 : hE = false) :
    (edgeStage1 hE hS hW hN sx sy sw sh deltaX deltaY).width = sw := by
  simp [edgeStage1, h, h2]

theorem edgeStage1_h {hE hS hW hN : Bool} {sx sy sw sh deltaX deltaY : ℚ}
    (h : hN = false) (h2 : hS = false) :
    (edgeStage1 hE hS hW hN sx sy sw sh deltaX deltaY).height = sh := by
  simp [edgeStage1, h, h2]

theorem edgeStage2_sum_x {hW hN : Bool} {sx sy sw sh : ℚ} {r : Rect}
    (h : hW = true) (hsum : r.x + r.width = sx + sw) :
    (edgeStage2 hW hN sx sy sw sh r).x + (edgeStage2 hW hN sx sy sw sh r).width = sx + sw := by
  simp only [edgeStage2, h, if_true]
  split_ifs
  · ring
  · exact hsum

theorem edgeStage2_sum_y {hW hN : Bool} {sx sy sw sh : ℚ} {r : Rect}
    (h : hN = true) (hsum : r.y + r.height = sy + sh) :
    (edgeStage2 hW hN sx sy sw sh r).y + (edgeStage2 hW hN sx sy sw sh r).height = sy + sh := by
  simp only [edgeStage2, h, if_true]
  split_ifs
  · ring
  · exact hsum

theorem edgeStage2_x {hW hN : Bool} {sx sy sw sh : ℚ} {r : Rect} (h : hW = false) :
    (edgeStage2 hW hN sx sy sw sh r).x = r.x := by
  simp only [edgeStage2, h, Bool.false_eq_true, if_false]
  split_ifs <;> rfl

theorem edgeStage2_y {hW hN : Bool} {sx sy sw sh : ℚ} {r : Rect} (h : hN = false) :
    (edgeStage2 hW hN sx sy sw sh r).y = r.y := by
  simp only [edgeStage2, h, Bool.false_eq_true, if_false]
  split_ifs <;> rfl

theorem edgeStage2_w_le {hW hN : Bool} {sx sy sw sh b : ℚ} {r : Rect}
    (hb : MIN_SIZE ≤ b) (hr : r.width ≤ b) :
    (edgeStage2 hW hN sx sy sw sh r).width ≤ b := by
  simp only [edgeStage2]
  split_ifs <;> assumption

theorem edgeStage2_h_le {hW hN : Bool} {sx sy sw sh b : ℚ} {r : Rect}
    (hb : MIN_SIZE ≤ b) (hr : r.height ≤ b) :
    (edgeStage2 hW hN sx sy sw sh r).height ≤ b := by
  simp only [edgeStage2]
  split_ifs <;> assumption

theorem edgeStage3_x_nonneg {hW hN : Bool} (r : Rect) : 0 ≤ (edgeStage3 hW hN r).x := by
  simp only [edgeStage3]
  split_ifs with h
  · exact le_refl 0
  · exact le_of_not_lt h

theorem edgeStage3_y_nonneg {hW hN : Bool} (r : Rect) : 0 ≤ (edgeStage3 hW hN r).y := by
  simp only [edgeStage3]
  split_ifs with h
  · exact le_refl 0
  · exact le_of_not_lt h

theorem edgeStage3_sum_x {hW hN : Bool} {r : Rect} (h : hW = true) :
    (edgeStage3 hW hN r).x + (edgeStage3 hW hN r).width = r.x + r.width := by
  simp only [edgeStage3, h, if_true]
  split_ifs
  · ring
  · rfl

theorem edgeStage3_sum_y {hW hN : Bool} {r : Rect} (h : hN = true) :
    (edgeStage3 hW hN r).y + (edgeStage3 hW hN r).height = r.y + r.height := by
  simp only [edgeStage3, h, if_true]
  split_ifs
  · ring
  · rfl

theorem edgeStage3_x_id {hW hN : Bool} {r : Rect} (h : 0 ≤ r.x) :
    (edgeStage3 hW hN r).x = r.x ∧ (edgeStage3 hW hN r).width = r.width := by
  simp [edgeStage3, not_lt.mpr h]

theorem edgeStage3_y_id {hW hN : Bool} {r : Rect} (h : 0 ≤ r.y) :
    (edgeStage3 hW hN r).y = r.y ∧ (edgeStage3 hW hN r).height = r.height := by
  simp [edgeStage3, not_lt.mpr h]

theorem edgeStage4_w_le {hE hS : Bool} {r : Rect} (hx : 0 ≤ r.x)
    (hcase : hE = true ∨ r.x + r.width ≤ CANVAS_WIDTH) :
    (edgeStage4 hE hS r).width ≤ CANVAS_WIDTH := by
  simp only [edgeStage4]
  rcases hcase with h | h
  · rw [h]
    split_ifs <;> simp_all <;> linarith
  · split_ifs <;> first | linarith | (exfalso; linarith)

theorem edgeStage4_h_le {hE hS : Bool} {r : Rect} (hy : 0 ≤ r.y)
    (hcase : hS = true ∨ r.y + r.height ≤ CANVAS_HEIGHT) :
    (edgeStage4 hE hS r).height ≤ CANVAS_HEIGHT := by
  simp only [edgeStage4]
  rcases hcase with h | h
  · rw [h]
    split_ifs <;> simp_all <;> linarith
  · split_ifs <;> first | linarith | (exfalso; linarith)

theorem edgeResizePre_le_canvas (cur : ResizeInteraction) (deltaX deltaY : ℚ)
    (hGood : GoodRect (startRect cur)) :
    (edgeResizePre cur deltaX deltaY).width ≤ CANVAS_WIDTH ∧
    (edgeResizePre cur deltaX deltaY).height ≤ CANVAS_HEIGHT := by
  obtain ⟨hx, hy, hxw, hyh, hw, hh⟩ := goodRect_start cur hGood
  unfold edgeResizePre
  constructor
  · apply edgeStage4_w_le (edgeStage3_x_nonneg _)
    by_cases hE : cur.handle.hasE = true
    · exact Or.inl hE
    · right
      by_cases hW : cur.handle.hasW = true
      · rw [edgeStage3_sum_x hW, edgeStage2_sum_x hW (edgeStage1_sum_x hW)]
        exact hxw
      · have hW2 : cur.handle.hasW = false := Bool.eq_false_iff.mpr hW
        have hE2 : cur.handle.hasE = false := Bool.eq_false_iff.mpr hE
        have h2x : (edgeStage2 cur.handle.hasW cur.handle.hasN
            cur.startX cur.startY cur.startWidth cur.startHeight
            (edgeStage1 cur.handle.hasE cur.handle.hasS cur.handle.hasW cur.handle.hasN
              cur.startX cur.startY cur.startWidth cur.startHeight deltaX deltaY)).x =
            cur.startX := by
          rw [edgeStage2_x hW2, edgeStage1_x hW2]
        have h2w : (edgeStage2 cur.handle.hasW cur.handle.hasN
            cur.startX cur.startY cur.startWidth cur.startHeight
            (edgeStage1 cur.handle.hasE cur.handle.hasS cur.handle.hasW cur.handle.hasN
              cur.startX cur.startY cur.startWidth cur.startHeight deltaX deltaY)).width ≤
            cur.startWidth :=
          edgeStage2_w_le hw (le_of_eq (edgeStage1_w hW2 hE2))
        have h3 := @edgeStage3_x_id cur.handle.hasW cur.handle.hasN _
          (h2x ▸ hx)
        rw [h3.1, h3.2, h2x]
        linarith
  · apply edgeStage4_h_le (edgeStage3_y_nonneg _)
    by_cases hS : cur.handle.hasS = true
    · exact Or.inl hS
    · right
      by_cases hN : cur.handle.hasN = true
      · rw [edgeStage3_sum_y hN, edgeStage2_sum_y hN (edgeStage1_sum_y hN)]
        exact hyh
      · have hN2 : cur.handle.hasN = false := Bool.eq_false_iff.mpr hN
        have hS2 : cur.handle.hasS = false := Bool.eq_false_iff.mpr hS
        have h2y : (edgeStage2 cur.handle.hasW cur.handle.hasN
            cur.startX cur.startY cur.startWidth cur.startHeight
            (edgeStage1 cur.handle.hasE cur.handle.hasS cur.handle.hasW cur.handle.hasN
              cur.startX cur.startY cur.startWidth cur.startHeight deltaX deltaY)).y =
            cur.startY := by
          rw [edgeStage2_y hN2, edgeStage1_y hN2]
        have h2h : (edgeStage2 cur.handle.hasW cur.handle.hasN
            cur.startX cur.startY cur.startWidth cur.startHeight
            (edgeStage1 cur.handle.hasE cur.handle.hasS cur.handle.hasW cur.handle.hasN
              cur.startX cur.startY cur.startWidth cur.startHeight deltaX deltaY)).height ≤
            cur.startHeight :=
          edgeStage2_h_le hh (le_of_eq (edgeStage1_h hN2 hS2))
        have h3 := @edgeStage3_y_id cur.handle.hasW cur.handle.hasN _
          (h2y ▸ hy)
        rw [h3.1, h3.2, h2y]
        linarith

theorem edgeStage1_int {hE hS hW hN : Bool} {sx sy sw sh deltaX deltaY : ℚ}
    (ix : IsIntQ sx) (iy : IsIntQ sy) (iw : IsIntQ sw) (ih : IsIntQ sh)
    (idx : IsIntQ deltaX) (idy : IsIntQ deltaY) :
    IntRect (edgeStage1 hE hS hW hN sx sy sw sh deltaX deltaY) :=
⟨IsIntQ.ite _ (ix.add idx) ix, IsIntQ.ite _ (iy.add idy) iy,
 IsIntQ.ite _ (iw.sub idx) (IsIntQ.ite _ (iw.add idx) iw),
 IsIntQ.ite _ (ih.sub idy) (IsIntQ.ite _ (ih.add idy) ih)⟩

theorem edgeStage2_int {hW hN : Bool} {sx sy sw sh : ℚ} {r : Rect}
    (ix : IsIntQ sx) (iy : IsIntQ sy) (iw : IsIntQ sw) (ih : IsIntQ sh)
    (hr : IntRect r) : IntRect (edgeStage2 hW hN sx sy sw sh r) := by
  obtain ⟨rx, ry, rw2, rh⟩ := hr
  exact ⟨IsIntQ.ite _ (IsIntQ.ite _ (ix.add (iw.sub isIntQ_MIN_SIZE)) rx) rx,
   IsIntQ.ite _ (IsIntQ.ite _ (iy.add (ih.sub isIntQ_MIN_SIZE)) ry) ry,
   IsIntQ.ite _ isIntQ_MIN_SIZE rw2,
   IsIntQ.ite _ isIntQ_MIN_SIZE rh⟩

theorem edgeStage3_int {hW hN : Bool} {r : Rect} (hr : IntRect r) :
    IntRect (edgeStage3 hW hN r) := by
  obtain ⟨rx, ry, rw2, rh⟩ := hr
  exact ⟨IsIntQ.ite _ isIntQ_zero rx, IsIntQ.ite _ isIntQ_zero ry,
   IsIntQ.ite _ (IsIntQ.ite _ (rw2.add rx) rw2) rw2,
   IsIntQ.ite _ (IsIntQ.ite _ (rh.add ry) rh) rh⟩

theorem edgeStage4_int {hE hS : Bool} {r : Rect} (hr : IntRect r) :
    IntRect (edgeStage4 hE hS r) := by
  obtain ⟨rx, ry, rw2, rh⟩ := hr
  exact ⟨IsIntQ.ite _ (IsIntQ.ite _ rx (isIntQ_CANVAS_WIDTH.sub rw2)) rx,
   IsIntQ.ite _ (IsIntQ.ite _ ry (isIntQ_CANVAS_HEIGHT.sub rh)) ry,
   IsIntQ.ite _ (IsIntQ.ite _ (isIntQ_CANVAS_WIDTH.sub rx) rw2) rw2,
   IsIntQ.ite _ (IsIntQ.ite _ (isIntQ_CANVAS_HEIGHT.sub ry) rh) rh⟩

theorem edgeResizePre_int (cur : ResizeInteraction) (deltaX deltaY : ℚ)
    (hInt : IntRect (startRect cur)) (idx : IsIntQ deltaX) (idy : IsIntQ deltaY) :
    IntRect (edgeResizePre cur deltaX deltaY) := by
  obtain ⟨ix, iy, iw, ih⟩ := intRect_start cur hInt
  exact edgeStage4_int (edgeStage3_int (edgeStage2_int ix iy iw ih
    (edgeStage1_int ix iy iw ih idx idy)))

theorem edgeResizeFinal_good (r : Rect) (h1 : r.width ≤ CANVAS_WIDTH)
    (h2 : r.height ≤ CANVAS_HEIGHT) : GoodRect (edgeResizeFinal r) := by
  have hW : max MIN_SIZE r.width ≤ CANVAS_WIDTH :=
    max_le (by norm_num [MIN_SIZE, CANVAS_WIDTH]) h1
  have hH : max MIN_SIZE r.height ≤ CANVAS_HEIGHT :=
    max_le (by norm_num [MIN_SIZE, CANVAS_HEIGHT]) h2
  have hxb := clamp_le r.x (by linarith : (0 : ℚ) ≤ CANVAS_WIDTH - max MIN_SIZE r.width)
  have hyb := clamp_le r.y (by linarith : (0 : ℚ) ≤ CANVAS_HEIGHT - max MIN_SIZE r.height)
  simp only [edgeResizeFinal, GoodRect]
  exact ⟨le_clamp _ _ _, le_clamp _ _ _, by linarith, by linarith,
    le_max_left _ _, le_max_left _ _⟩

theorem edgeResizeFinal_int {r : Rect} (hr : IntRect r) : IntRect (edgeResizeFinal r) := by
  obtain ⟨rx, ry, rw2, rh⟩ := hr
  exact ⟨(rx.clamp isIntQ_zero (isIntQ_CANVAS_WIDTH.sub (isIntQ_MIN_SIZE.max rw2))),
   (ry.clamp isIntQ_zero (isIntQ_CANVAS_HEIGHT.sub (isIntQ_MIN_SIZE.max rh))),
   isIntQ_MIN_SIZE.max rw2, isIntQ_MIN_SIZE.max rh⟩

theorem roundRect_eq_self {r : Rect} (hr : IntRect r) : roundRect r = r := by
  obtain ⟨rx, ry, rw2, rh⟩ := hr
  unfold roundRect
  rw [roundq_eq_self rx, roundq_eq_self ry, roundq_eq_self rw2, roundq_eq_self rh]

theorem roundRect_weak {r : Rect} (hGood : GoodRect r) :
    0 ≤ (roundRect r).x ∧ 0 ≤ (roundRect r).y ∧
    MIN_SIZE ≤ (roundRect r).width ∧ MIN_SIZE ≤ (roundRect r).height ∧
    (roundRect r).x + (roundRect r).width ≤ CANVAS_WIDTH + 1 ∧
    (roundRect r).y + (roundRect r).height ≤ CANVAS_HEIGHT + 1 := by
  obtain ⟨hx, hy, hxw, hyh, hw, hh⟩ := hGood
  have hx1 := roundq_le_add_half r.x
  have hy1 := roundq_le_add_half r.y
  have hw1 := roundq_le_add_half r.width
  have hh1 := roundq_le_add_half r.height
  exact ⟨le_roundq_of_le hx isIntQ_zero, le_roundq_of_le hy isIntQ_zero,
    le_roundq_of_le hw isIntQ_MIN_SIZE, le_roundq_of_le hh isIntQ_MIN_SIZE,
    by show roundq r.x + roundq r.width ≤ _; linarith,
    by show roundq r.y + roundq r.height ≤ _; linarith⟩

theorem computeEdgeResize_weak (cur : ResizeInteraction) (deltaX deltaY : ℚ)
    (hGood : GoodRect (startRect cur)) :
    0 ≤ (computeEdgeResize cur deltaX deltaY).x ∧
    0 ≤ (computeEdgeResize cur deltaX deltaY).y ∧
    MIN_SIZE ≤ (computeEdgeResize cur deltaX deltaY).width ∧
    MIN_SIZE ≤ (computeEdgeResize cur deltaX deltaY).height ∧
    (computeEdgeResize cur deltaX deltaY).x + (computeEdgeResize cur deltaX deltaY).width ≤
      CANVAS_WIDTH + 1 ∧
    (computeEdgeResize cur deltaX deltaY).y + (computeEdgeResize cur deltaX deltaY).height ≤
      CANVAS_HEIGHT + 1 := by
  have hb := edgeResizePre_le_canvas cur deltaX deltaY hGood
  exact roundRect_weak (edgeResizeFinal_good (edgeResizePre cur deltaX deltaY) hb.1 hb.2)

theorem computeEdgeResize_good_int (cur : ResizeInteraction) (deltaX deltaY : ℚ)
    (hGood : GoodRect (startRect cur)) (hInt : IntRect (startRect cur))
    (idx : IsIntQ deltaX) (idy : IsIntQ deltaY) :
    GoodRect (computeEdgeResize cur deltaX deltaY) ∧
    IntRect (computeEdgeResize cur deltaX deltaY) := by
  have hb := edgeResizePre_le_canvas cur deltaX deltaY hGood
  have hInt2 : IntRect (edgeResizeFinal (edgeResizePre cur deltaX deltaY)) :=
    edgeResizeFinal_int (edgeResizePre_int cur deltaX deltaY hInt idx idy)
  have hEq : computeEdgeResize cur deltaX deltaY =
      edgeResizeFinal (edgeResizePre cur deltaX deltaY) := roundRect_eq_self hInt2
  rw [hEq]
  exact ⟨edgeResizeFinal_good (edgeResizePre cur deltaX deltaY) hb.1 hb.2, hInt2⟩

theorem scaled_side_le {w L bound : ℚ} (h1 : 0 < L) (h2 : w ≤ L) (h3 : 0 ≤ bound) :
    w * (bound / L) ≤ bound := by
  calc w * (bound / L) ≤ L * (bound / L) :=
        mul_le_mul_of_nonneg_right h2 (by positivity)
  _ = bound := by rw [mul_comm, div_mul_cancel₀ _ (ne_of_gt h1)]

theorem normalizeInitialSize_bounds (naturalWidth naturalHeight : ℚ) :
    MIN_SIZE ≤ (normalizeInitialSize naturalWidth naturalHeight).1 ∧
    (normalizeInitialSize naturalWidth naturalHeight).1 ≤ INITIAL_MAX_SIDE ∧
    MIN_SIZE ≤ (normalizeInitialSize naturalWidth naturalHeight).2 ∧
    (normalizeInitialSize naturalWidth naturalHeight).2 ≤ INITIAL_MAX_SIDE ∧
    IsIntQ (normalizeInitialSize naturalWidth naturalHeight).1 ∧
    IsIntQ (normalizeInitialSize naturalWidth naturalHeight).2 := by
  have h420 : IsIntQ INITIAL_MAX_SIDE := isIntQ_INITIAL_MAX_SIDE
  have hm420 : MIN_SIZE ≤ INITIAL_MAX_SIDE := by norm_num [MIN_SIZE, INITIAL_MAX_SIDE]
  have hw1 : (0 : ℚ) < max 1 naturalWidth := lt_of_lt_of_le one_pos (le_max_left _ _)
  have hh1 : (0 : ℚ) < max 1 naturalHeight := lt_of_lt_of_le one_pos (le_max_left _ _)
  have hL : (0 : ℚ) < max (max 1 naturalWidth) (max 1 naturalHeight) :=
    lt_of_lt_of_le hw1 (le_max_left _ _)
  have hwL : max 1 naturalWidth ≤ max (max 1 naturalWidth) (max 1 naturalHeight) :=
    le_max_left _ _
  have hhL : max 1 naturalHeight ≤ max (max 1 naturalWidth) (max 1 naturalHeight) :=
    le_max_right _ _
  simp only [normalizeInitialSize]
  split_ifs with h1 h2
  · have hwle : max 1 naturalWidth *
        (INITIAL_MAX_SIDE / max (max 1 naturalWidth) (max 1 naturalHeight)) ≤
        INITIAL_MAX_SIDE :=
      scaled_side_le hL hwL (by norm_num [INITIAL_MAX_SIDE])
    have hhle : max 1 naturalHeight *
        (INITIAL_MAX_SIDE / max (max 1 naturalWidth) (max 1 naturalHeight)) ≤
        INITIAL_MAX_SIDE :=
      scaled_side_le hL hhL (by norm_num [INITIAL_MAX_SIDE])
    exact ⟨le_max_left _ _, max_le hm420 (roundq_le_of_le hwle h420),
      le_max_left _ _, max_le hm420 (roundq_le_of_le hhle h420),
      isIntQ_MIN_SIZE.max (roundq_isInt _), isIntQ_MIN_SIZE.max (roundq_isInt _)⟩
  · have h80 : (0 : ℚ) ≤ INITIAL_MIN_SIDE := by norm_num [INITIAL_MIN_SIDE]
    have h80_420 : INITIAL_MIN_SIDE ≤ INITIAL_MAX_SIDE := by
      norm_num [INITIAL_MIN_SIDE, INITIAL_MAX_SIDE]
    have hwle : max 1 naturalWidth *
        (INITIAL_MIN_SIDE / max (max 1 naturalWidth) (max 1 naturalHeight)) ≤
        INITIAL_MIN_SIDE := scaled_side_le hL hwL h80
    have hhle : max 1 naturalHeight *
        (INITIAL_MIN_SIDE / max (max 1 naturalWidth) (max 1 naturalHeight)) ≤
        INITIAL_MIN_SIDE := scaled_side_le hL hhL h80
    exact ⟨le_max_left _ _, max_le hm420 (roundq_le_of_le (hwle.trans h80_420) h420),
      le_max_left _ _, max_le hm420 (roundq_le_of_le (hhle.trans h80_420) h420),
      isIntQ_MIN_SIZE.max (roundq_isInt _), isIntQ_MIN_SIZE.max (roundq_isInt _)⟩
  · push_neg at h1
    have hwle : max 1 naturalWidth * 1 ≤ INITIAL_MAX_SIDE := by
      rw [mul_one]
      exact hwL.trans h1
    have hhle : max 1 naturalHeight * 1 ≤ INITIAL_MAX_SIDE := by
      rw [mul_one]
      exact hhL.trans h1
    exact ⟨le_max_left _ _, max_le hm420 (roundq_le_of_le hwle h420),
      le_max_left _ _, max_le hm420 (roundq_le_of_le hhle h420),
      isIntQ_MIN_SIZE.max (roundq_isInt _), isIntQ_MIN_SIZE.max (roundq_isInt _)⟩

theorem resolveInitialPlacement_good (center : ℚ × ℚ) (st : CanvasState)
    (width height : ℚ) (hwm : MIN_SIZE ≤ width) (hwM : width ≤ CANVAS_WIDTH)
    (hhm : MIN_SIZE ≤ height) (hhM : height ≤ CANVAS_HEIGHT)
    (hiw : IsIntQ width) (hih : IsIntQ height) :
    GoodRect { x := (resolveInitialPlacement center st width height).1.1,
               y := (resolveInitialPlacement center st width height).1.2,
               width := width, height := height } ∧
    IsIntQ (resolveInitialPlacement center st width height).1.1 ∧
    IsIntQ (resolveInitialPlacement center st width height).1.2 := by
  have hxv : IsIntQ (if isOutOfBounds (placementCalc center width height
        st.placementOffsetIndex).1 (placementCalc center width height
        st.placementOffsetIndex).2 width height = true
      then placementCalc center width height 0
      else placementCalc center width height st.placementOffsetIndex).1 := by
    split_ifs <;> exact roundq_isInt _
  have hyv : IsIntQ (if isOutOfBounds (placementCalc center width height
        st.placementOffsetIndex).1 (placementCalc center width height
        st.placementOffsetIndex).2 width height = true
      then placementCalc center width height 0
      else placementCalc center width height st.placementOffsetIndex).2 := by
    split_ifs <;> exact roundq_isInt _
  have hxb := clamp_le (if isOutOfBounds (placementCalc center width height
        st.placementOffsetIndex).1 (placementCalc center width height
        st.placementOffsetIndex).2 width height = true
      then placementCalc center width height 0
      else placementCalc center width height st.placementOffsetIndex).1
    (by linarith : (0 : ℚ) ≤ CANVAS_WIDTH - width)
  have hyb := clamp_le (if isOutOfBounds (placementCalc center width height
        st.placementOffsetIndex).1 (placementCalc center width height
        st.placementOffsetIndex).2 width height = true
      then placementCalc center width height 0
      else placementCalc center width height st.placementOffsetIndex).2
    (by linarith : (0 : ℚ) ≤ CANVAS_HEIGHT - height)
  unfold resolveInitialPlacement GoodRect
  refine ⟨⟨le_clamp _ _ _, le_clamp _ _ _, by simp only []; linarith,
    by simp only []; linarith, hwm, hhm⟩,
    hxv.clamp isIntQ_zero (isIntQ_CANVAS_WIDTH.sub hiw),
    hyv.clamp isIntQ_zero (isIntQ_CANVAS_HEIGHT.sub hih)⟩

theorem moveGeometry_good (m : MoveInteraction) (item : CanvasImageItem)
    (deltaX deltaY : ℚ) (hGood : GoodRect (itemRect item))
    (hInt : IntRect (itemRect item)) :
    GoodRect { x := (moveGeometry m item deltaX deltaY).1,
               y := (moveGeometry m item deltaX deltaY).2,
               width := item.width, height := item.height } ∧
    IsIntQ (moveGeometry m item deltaX deltaY).1 ∧
    IsIntQ (moveGeometry m item deltaX deltaY).2 := by
  obtain ⟨hx, hy, hxw, hyh, hw, hh⟩ := hGood
  obtain ⟨ix, iy, iw, ih⟩ := hInt
  have hwM : item.width ≤ CANVAS_WIDTH := by
    show item.width ≤ CANVAS_WIDTH
    have : (0 : ℚ) ≤ item.x := hx
    have h2 : item.x + item.width ≤ CANVAS_WIDTH := hxw
    linarith
  have hhM : item.height ≤ CANVAS_HEIGHT := by
    have : (0 : ℚ) ≤ item.y := hy
    have h2 : item.y + item.height ≤ CANVAS_HEIGHT := hyh
    linarith
  have hx1 : roundq (clamp (m.startX + deltaX) 0 (CANVAS_WIDTH - item.width)) ≤
      CANVAS_WIDTH - item.width :=
    roundq_le_of_le (clamp_le _ (by linarith)) (isIntQ_CANVAS_WIDTH.sub iw)
  have hy1 : roundq (clamp (m.startY + deltaY) 0 (CANVAS_HEIGHT - item.height)) ≤
      CANVAS_HEIGHT - item.height :=
    roundq_le_of_le (clamp_le _ (by linarith)) (isIntQ_CANVAS_HEIGHT.sub ih)
  have hx0 : 0 ≤ roundq (clamp (m.startX + deltaX) 0 (CANVAS_WIDTH - item.width)) :=
    le_roundq_of_le (le_clamp _ _ _) isIntQ_zero
  have hy0 : 0 ≤ roundq (clamp (m.startY + deltaY) 0 (CANVAS_HEIGHT - item.height)) :=
    le_roundq_of_le (le_clamp _ _ _) isIntQ_zero
  exact ⟨⟨hx0, hy0, by show roundq _ + item.width ≤ _; linarith,
    by show roundq _ + item.height ≤ _; linarith, hw, hh⟩,
    roundq_isInt _, roundq_isInt _⟩

/-- The C1 counterexample session: a full-width item (x = 0, width = 2000,
height = 24) resized from its west edge with the fractional pointer delta
999.5 (MouseEvent.clientX is a double, so fractional deltas are possible on
zoomed or high-DPI displays). -/
def c1Edge : ResizeInteraction :=
{ itemId := 1, handle := .w, startClientX := 0, startClientY := 0,
  startX := 0, startY := 0, startWidth := 2000, startHeight := 24,
  startSnapshot := { items := [], selectedId := none, nextZIndex := 1,
                     placementOffsetIndex := 0 } }


def c1Meta : NewItemMeta := { newId := 1, createdAt := 0 }

def c1Payload : ClipboardImagePayload :=
{ mimeType := "image/png", base64 := "AAAA", width := 420, height := 420 }

def c1St0 : CanvasState :=
{ items := [], selectedId := none, nextZIndex := 1, placementOffsetIndex := 0 }

def c1ItemA : CanvasImageItem :=
{ id := 1, source := .paste, dataUrl := "data:image/png;base64,AAAA",
  naturalWidth := 420, naturalHeight := 420, x := 0, y := 0, width := 420, height := 420,
  zIndex := 1, createdAt := 0 }

def c1StateA : CanvasState :=
{ items := [c1ItemA], selectedId := some 1, nextZIndex := 2, placementOffsetIndex := 1 }

def c1CompA : Component :=
{ state := c1StateA, undoStack := [c1St0],
  noticeMessage := "画像を追加しました。", interaction := none }

theorem c1_step_paste :
    handlePaste true (210, 210) c1Meta (some (some c1Payload)) initialComponent = c1CompA := by
  norm_num [handlePaste, addImageFromClipboard, addCanvasItem, createCanvasItem,
    normalizeInitialSize, resolveInitialPlacement, placementCalc, isOutOfBounds,
    clamp, roundq, round_eq, enforceImageLimit, pushUndo, createSnapshot,
    initialComponent, c1Meta, c1Payload, c1CompA, c1StateA, c1ItemA, c1St0,
    CANVAS_WIDTH, CANVAS_HEIGHT, INITIAL_MAX_SIDE, INITIAL_MIN_SIDE, MIN_SIZE,
    MAX_IMAGES, UNDO_LIMIT, PLACEMENT_OFFSET_STEP]
  decide

def c1ResizeE : ResizeInteraction :=
{ itemId := 1, handle := .e, startClientX := 0, startClientY := 0,
  startX := 0, startY := 0, startWidth := 420, startHeight := 420,
  startSnapshot := c1StateA }

def c1CompB : Component :=
{ state := c1StateA, undoStack := [c1St0],
  noticeMessage := "画像を追加しました。", interaction := some (.resize c1ResizeE) }

theorem c1_step_grow_start :
    startResize true { clientX := 0, clientY := 0, button := 0 } 1 .e c1CompA = c1CompB := by
  norm_num [startResize, getItemById, selectItem, bringToFront, updateItem,
    createSnapshot, c1CompA, c1CompB, c1StateA, c1ItemA, c1ResizeE]

def c1ItemB : CanvasImageItem :=
{ id := 1, source := .paste, dataUrl := "data:image/png;base64,AAAA",
  naturalWidth := 420, naturalHeight := 420, x := 0, y := 0, width := 2000, height := 420,
  zIndex := 1, createdAt := 0 }

def c1StateB : CanvasState :=
{ items := [c1ItemB], selectedId := some 1, nextZIndex := 2, placementOffsetIndex := 1 }

def c1CompC : Component :=
{ state := c1StateB, undoStack := [c1St0],
  noticeMessage := "画像を追加しました。", interaction := some (.resize c1ResizeE) }

theorem c1_step_grow :
    handlePointerMove { clientX := 1580, clientY := 0, button := 0 } c1CompB = c1CompC := by
  norm_num [handlePointerMove, getItemById, updateItem, computeEdgeResize,
    edgeResizePre, edgeStage1, edgeStage2, edgeStage3, edgeStage4, edgeResizeFinal,
    roundRect, clamp, roundq, round_eq, isCornerHandle, ResizeHandle.hasE,
    ResizeHandle.hasW, ResizeHandle.hasN, ResizeHandle.hasS,
    Interaction.itemId, Interaction.startSnapshot,
    c1CompB, c1CompC, c1StateA, c1StateB, c1ItemA, c1ItemB, c1ResizeE,
    CANVAS_WIDTH, CANVAS_HEIGHT, MIN_SIZE]

def c1CompD : Component :=
{ state := c1StateB, undoStack := [c1St0, c1StateA],
  noticeMessage := "画像を追加しました。", interaction := none }

theorem c1_step_commit : handlePointerUp c1CompC = c1CompD := by
  norm_num [handlePointerUp, stopInteraction, isUndoTargetChanged, toUndoComparable,
    createSnapshot, pushUndo, Interaction.startSnapshot, UNDO_LIMIT,
    c1CompC, c1CompD, c1StateA, c1StateB, c1ItemA, c1ItemB, c1ResizeE, c1St0]

def c1ResizeW : ResizeInteraction :=
{ itemId := 1, handle := .w, startClientX := 0, startClientY := 0,
  startX := 0, startY := 0, startWidth := 2000, startHeight := 420,
  startSnapshot := c1StateB }

def c1CompE : Component :=
{ state := c1StateB, undoStack := [c1St0, c1StateA],
  noticeMessage := "画像を追加しました。", interaction := some (.resize c1ResizeW) }

theorem c1_step_shrink_start :
    startResize true { clientX := 0, clientY := 0, button := 0 } 1 .w c1CompD = c1CompE := by
  norm_num [startResize, getItemById, selectItem, bringToFront, updateItem,
    createSnapshot, c1CompD, c1CompE, c1StateB, c1ItemB, c1ResizeW]

def c1ItemF : CanvasImageItem :=
{ id := 1, source := .paste, dataUrl := "data:image/png;base64,AAAA",
  naturalWidth := 420, naturalHeight := 420, x := 1000, y := 0, width := 1001, height := 420,
  zIndex := 1, createdAt := 0 }

def c1CompF : Component :=
{ state := { items := [c1ItemF], selectedId := some 1, nextZIndex := 2,
             placementOffsetIndex := 1 },
  undoStack := [c1St0, c1StateA],
  noticeMessage := "画像を追加しました。", interaction := some (.resize c1ResizeW) }

theorem c1_step_shrink :
    handlePointerMove { clientX := 1999 / 2, clientY := 0, button := 0 } c1CompE = c1CompF := by
  norm_num [handlePointerMove, getItemById, updateItem, computeEdgeResize,
    edgeResizePre, edgeStage1, edgeStage2, edgeStage3, edgeStage4, edgeResizeFinal,
    roundRect, clamp, roundq, round_eq, isCornerHandle, ResizeHandle.hasE,
    ResizeHandle.hasW, ResizeHandle.hasN, ResizeHandle.hasS,
    Interaction.itemId, Interaction.startSnapshot,
    c1CompE, c1CompF, c1StateB, c1ItemB, c1ItemF, c1ResizeW,
    CANVAS_WIDTH, CANVAS_HEIGHT, MIN_SIZE]

theorem c1_trace_reachable : Reachable c1CompF := by
  have r1 := Reachable.paste true (210, 210) c1Meta (some (some c1Payload)) Reachable.init
  rw [c1_step_paste] at r1
  have r2 := Reachable.resizeStart true { clientX := 0, clientY := 0, button := 0 } 1 .e r1
  rw [c1_step_grow_start] at r2
  have r3 := Reachable.pointerMove { clientX := 1580, clientY := 0, button := 0 } r2
  rw [c1_step_grow] at r3
  have r4 := Reachable.pointerUp r3
  rw [c1_step_commit] at r4
  have r5 := Reachable.resizeStart true { clientX := 0, clientY := 0, button := 0 } 1 .w r4
  rw [c1_step_shrink_start] at r5
  have r6 := Reachable.pointerMove { clientX := 1999 / 2, clientY := 0, button := 0 } r5
  rw [c1_step_shrink] at r6
  exact r6

/-- C1 counterexample: the start geometry satisfies every invariant with
integer coordinates, yet the west-edge resize with deltaX = 999.5 rounds to
x = 1000, width = 1001, so x + width = 2001 exceeds CANVAS_WIDTH: the claimed
invariant is not preserved by edge resize after the final rounding.  Moreover
the violation occurs in a reachable state: c1CompF is reached from the initial
component by a paste, an integer-delta east resize session growing the item to
x = 0, width = 2000, and the fractional west resize above, and its item has
x + width = 2001. -/
theorem c1_counterexample :
    GoodRect (startRect c1Edge) ∧ IntRect (startRect c1Edge) ∧
    isCornerHandle c1Edge.handle = false ∧
    (computeEdgeResize c1Edge (1999 / 2) 0).x = 1000 ∧
    (computeEdgeResize c1Edge (1999 / 2) 0).width = 1001 ∧
    ¬ ((computeEdgeResize c1Edge (1999 / 2) 0).x +
         (computeEdgeResize c1Edge (1999 / 2) 0).width ≤ CANVAS_WIDTH) ∧
    Reachable c1CompF ∧
    (∃ it ∈ c1CompF.state.items, it.x + it.width = 2001 ∧
      ¬ (it.x + it.width ≤ CANVAS_WIDTH)) := by
  refine ⟨by norm_num [GoodRect, startRect, c1Edge, MIN_SIZE, CANVAS_WIDTH, CANVAS_HEIGHT],
    ⟨⟨0, by norm_num [c1Edge, startRect]⟩, ⟨0, by norm_num [c1Edge, startRect]⟩,
     ⟨2000, by norm_num [c1Edge, startRect]⟩, ⟨24, by norm_num [c1Edge, startRect]⟩⟩,
    rfl, ?_, ?_, ?_, c1_trace_reachable,
    ⟨c1ItemF, List.mem_singleton_self _, by norm_num [c1ItemF],
      by norm_num [c1ItemF, CANVAS_WIDTH]⟩⟩ <;>
  norm_num [computeEdgeResize, edgeResizePre, edgeStage1, edgeStage2, edgeStage3,
    edgeStage4, edgeResizeFinal, roundRect, c1Edge, ResizeHandle.hasE, ResizeHandle.hasW,
    ResizeHandle.hasN, ResizeHandle.hasS, clamp, roundq, round_eq, MIN_SIZE,
    CANVAS_WIDTH, CANVAS_HEIGHT]

/-- C1 (amended): every geometry-changing operation preserves the invariants
0 ≤ x, 0 ≤ y, x + width ≤ CANVAS_WIDTH, y + height ≤ CANVAS_HEIGHT,
MIN_SIZE ≤ width, MIN_SIZE ≤ height together with integrality of the stored
coordinates, with one exception forced by the counterexample: an edge-handle
resize applies Math.round after its clamps, so with fractional pointer deltas
only the weakened right/bottom bounds x + width ≤ CANVAS_WIDTH + 1 and
y + height ≤ CANVAS_HEIGHT + 1 are guaranteed (the other four bounds still
hold); with integer pointer deltas the full invariant is preserved there too.
Add placement, pointer move and corner resize preserve the full invariant for
arbitrary rational inputs. -/
theorem c1_amended_invariants :
    (∀ (center : ℚ × ℚ) (st : CanvasState) (naturalWidth naturalHeight : ℚ),
      GoodRect { x := (resolveInitialPlacement center st
                    (normalizeInitialSize naturalWidth naturalHeight).1
                    (normalizeInitialSize naturalWidth naturalHeight).2).1.1,
                 y := (resolveInitialPlacement center st
                    (normalizeInitialSize naturalWidth naturalHeight).1
                    (normalizeInitialSize naturalWidth naturalHeight).2).1.2,
                 width := (normalizeInitialSize naturalWidth naturalHeight).1,
                 height := (normalizeInitialSize naturalWidth naturalHeight).2 } ∧
      IsIntQ (resolveInitialPlacement center st
        (normalizeInitialSize naturalWidth naturalHeight).1
        (normalizeInitialSize naturalWidth naturalHeight).2).1.1 ∧
      IsIntQ (resolveInitialPlacement center st
        (normalizeInitialSize naturalWidth naturalHeight).1
        (normalizeInitialSize naturalWidth naturalHeight).2).1.2 ∧
      IsIntQ (normalizeInitialSize naturalWidth naturalHeight).1 ∧
      IsIntQ (normalizeInitialSize naturalWidth naturalHeight).2) ∧
    (∀ (m : MoveInteraction) (item : CanvasImageItem) (deltaX deltaY : ℚ),
      GoodRect (itemRect item) → IntRect (itemRect item) →
      GoodRect { x := (moveGeometry m item deltaX deltaY).1,
                 y := (moveGeometry m item deltaX deltaY).2,
                 width := item.width, height := item.height } ∧
      IsIntQ (moveGeometry m item deltaX deltaY).1 ∧
      IsIntQ (moveGeometry m item deltaX deltaY).2) ∧
    (∀ (cur : ResizeInteraction) (deltaX deltaY : ℚ),
      isCornerHandle cur.handle = true →
      GoodRect (startRect cur) → IntRect (startRect cur) →
      GoodRect (computeCornerResize cur deltaX deltaY) ∧
      IntRect (computeCornerResize cur deltaX deltaY)) ∧
    (∀ (cur : ResizeInteraction) (deltaX deltaY : ℚ),
      isCornerHandle cur.handle = false →
      GoodRect (startRect cur) → IntRect (startRect cur) →
      (0 ≤ (computeEdgeResize cur deltaX deltaY).x ∧
       0 ≤ (computeEdgeResize cur deltaX deltaY).y ∧
       MIN_SIZE ≤ (computeEdgeResize cur deltaX deltaY).width ∧
       MIN_SIZE ≤ (computeEdgeResize cur deltaX deltaY).height ∧
       (computeEdgeResize cur deltaX deltaY).x +
         (computeEdgeResize cur deltaX deltaY).width ≤ CANVAS_WIDTH + 1 ∧
       (computeEdgeResize cur deltaX deltaY).y +
         (computeEdgeResize cur deltaX deltaY).height ≤ CANVAS_HEIGHT + 1) ∧
      (IsIntQ deltaX → IsIntQ deltaY →
        GoodRect (computeEdgeResize cur deltaX deltaY) ∧
        IntRect (computeEdgeResize cur deltaX deltaY))) := by
  refine ⟨?_, ?_, ?_, ?_⟩
  · intro center st naturalWidth naturalHeight
    obtain ⟨h1, h2, h3, h4, h5, h6⟩ := normalizeInitialSize_bounds naturalWidth naturalHeight
    have hWle : INITIAL_MAX_SIDE ≤ CANVAS_WIDTH := by
      norm_num [INITIAL_MAX_SIDE, CANVAS_WIDTH]
    have hHle : INITIAL_MAX_SIDE ≤ CANVAS_HEIGHT := by
      norm_num [INITIAL_MAX_SIDE, CANVAS_HEIGHT]
    obtain ⟨hg, hix, hiy⟩ := resolveInitialPlacement_good center st _ _
      h1 (h2.trans hWle) h3 (h4.trans hHle) h5 h6
    exact ⟨hg, hix, hiy, h5, h6⟩
  · intro m item deltaX deltaY hGood hInt
    exact moveGeometry_good m item deltaX deltaY hGood hInt
  · intro cur deltaX deltaY hCorner hGood hInt
    exact corner_bounds cur deltaX deltaY hGood hInt
  · intro cur deltaX deltaY hEdge hGood hInt
    exact ⟨computeEdgeResize_weak cur deltaX deltaY hGood,
      fun idx idy => computeEdgeResize_good_int cur deltaX deltaY hGood hInt idx idy⟩

/-- The concrete item the C1 witness moves: 100 by 100 at (5, 6). -/
def c1Item : CanvasImageItem :=
{ id := 1, source := .paste, dataUrl := "d", naturalWidth := 100, naturalHeight := 100,
  x := 5, y := 6, width := 100, height := 100, zIndex := 1, createdAt := 0 }

/-- The concrete move session of the C1 witness. -/
def c1Move : MoveInteraction :=
{ itemId := 1, startClientX := 0, startClientY := 0, startX := 5, startY := 6,
  startSnapshot := { items := [], selectedId := none, nextZIndex := 1,
                     placementOffsetIndex := 0 } }

/-- The concrete corner session of the C1 witness (south-east handle). -/
def c1Corner : ResizeInteraction :=
{ itemId := 1, handle := .se, startClientX := 0, startClientY := 0,
  startX := 10, startY := 20, startWidth := 100, startHeight := 50,
  startSnapshot := { items := [], selectedId := none, nextZIndex := 1,
                     placementOffsetIndex := 0 } }

/-- C1 witness: the amended theorem applied to a concrete placement, a
concrete move, a concrete corner resize and a concrete integral-delta edge
resize, with every hypothesis discharged at those inputs. -/
theorem c1_amended_witness :
    GoodRect (itemRect c1Item) ∧ IntRect (itemRect c1Item) ∧
    isCornerHandle c1Corner.handle = true ∧
    GoodRect (startRect c1Corner) ∧ IntRect (startRect c1Corner) ∧
    isCornerHandle c1Edge.handle = false ∧
    GoodRect (startRect c1Edge) ∧ IntRect (startRect c1Edge) ∧
    IsIntQ (3 : ℚ) ∧ IsIntQ (4 : ℚ) ∧
    (GoodRect { x := (moveGeometry c1Move c1Item 3 4).1,
                y := (moveGeometry c1Move c1Item 3 4).2,
                width := c1Item.width, height := c1Item.height } ∧
     IsIntQ (moveGeometry c1Move c1Item 3 4).1 ∧
     IsIntQ (moveGeometry c1Move c1Item 3 4).2) ∧
    (GoodRect (computeCornerResize c1Corner 5 7) ∧
     IntRect (computeCornerResize c1Corner 5 7)) ∧
    (GoodRect (computeEdgeResize c1Edge 3 4) ∧
     IntRect (computeEdgeResize c1Edge 3 4)) := by
  have hItemG : GoodRect (itemRect c1Item) := by
    norm_num [GoodRect, itemRect, c1Item, MIN_SIZE, CANVAS_WIDTH, CANVAS_HEIGHT]
  have hItemI : IntRect (itemRect c1Item) :=
    ⟨⟨5, by norm_num [c1Item, itemRect]⟩, ⟨6, by norm_num [c1Item, itemRect]⟩,
     ⟨100, by norm_num [c1Item, itemRect]⟩, ⟨100, by norm_num [c1Item, itemRect]⟩⟩
  have hCornG : GoodRect (startRect c1Corner) := by
    norm_num [GoodRect, startRect, c1Corner, MIN_SIZE, CANVAS_WIDTH, CANVAS_HEIGHT]
  have hCornI : IntRect (startRect c1Corner) :=
    ⟨⟨10, by norm_num [c1Corner, startRect]⟩, ⟨20, by norm_num [c1Corner, startRect]⟩,
     ⟨100, by norm_num [c1Corner, startRect]⟩, ⟨50, by norm_num [c1Corner, startRect]⟩⟩
  have hEdgeG : GoodRect (startRect c1Edge) := by
    norm_num [GoodRect, startRect, c1Edge, MIN_SIZE, CANVAS_WIDTH, CANVAS_HEIGHT]
  have hEdgeI : IntRect (startRect c1Edge) :=
    ⟨⟨0, by norm_num [c1Edge, startRect]⟩, ⟨0, by norm_num [c1Edge, startRect]⟩,
     ⟨2000, by norm_num [c1Edge, startRect]⟩, ⟨24, by norm_num [c1Edge, startRect]⟩⟩
  have h3 : IsIntQ (3 : ℚ) := ⟨3, by norm_num⟩
  have h4 : IsIntQ (4 : ℚ) := ⟨4, by norm_num⟩
  exact ⟨hItemG, hItemI, rfl, hCornG, hCornI, rfl, hEdgeG, hEdgeI, h3, h4,
    c1_amended_invariants.2.1 c1Move c1Item 3 4 hItemG hItemI,
    c1_amended_invariants.2.2.1 c1Corner 5 7 rfl hCornG hCornI,
    (c1_amended_invariants.2.2.2 c1Edge 3 4 rfl hEdgeG hEdgeI).2 h3 h4⟩

theorem filter_ne_length_of_nodup (l : List CanvasImageItem) (e : CanvasImageItem)
    (hN : (l.map (fun it => it.id)).Nodup) (he : e ∈ l) :
    (l.filter (fun it => it.id != e.id)).length + 1 = l.length := by
  induction l with
  | nil => cases he
  | cons a t ih =>
      simp only [List.map_cons, List.nodup_cons] at hN
      obtain ⟨haN, htN⟩ := hN
      by_cases hae : a.id = e.id
      · have htAll : ∀ b ∈ t, (b.id != e.id) = true := by
          intro b hb
          have hba : b.id ≠ a.id := fun hEq =>
            haN (hEq ▸ List.mem_map_of_mem (fun it => it.id) hb)
          simp only [bne_iff_ne, ne_eq]
          rw [← hae]
          exact hba
        rw [List.filter_cons_of_neg (by simp [hae])]
        rw [List.filter_eq_self.mpr htAll]
        simp
      · have heT : e ∈ t := by
          rcases List.mem_cons.mp he with h | h
          · exact absurd (congrArg (fun it => it.id) h.symm) hae
          · exact h
        rw [List.filter_cons_of_pos (by simp [bne_iff_ne]; exact hae)]
        simp only [List.length_cons]
        have := ih htN heT
        omega

theorem mergeSort_head_min (l : List CanvasImageItem) (e : CanvasImageItem)
    (rest : List CanvasImageItem)
    (h : l.mergeSort (fun a b => decide (a.createdAt ≤ b.createdAt)) = e :: rest) :
    e ∈ l ∧ ∀ it ∈ l, e.createdAt ≤ it.createdAt := by
  have hperm := List.mergeSort_perm l (fun a b => decide (a.createdAt ≤ b.createdAt))
  have hsorted := @List.sorted_mergeSort CanvasImageItem
    (fun a b => decide (a.createdAt ≤ b.createdAt))
    (fun a b c hab hbc => by
      simp only [decide_eq_true_eq] at hab hbc ⊢
      exact le_trans hab hbc)
    (fun a b => by
      simp only [Bool.or_eq_true, decide_eq_true_eq]
      exact le_total a.createdAt b.createdAt)
    l
  rw [h] at hperm hsorted
  constructor
  · exact hperm.mem_iff.mp (List.mem_cons_self e rest)
  · intro it hit
    have hit2 : it ∈ e :: rest := hperm.mem_iff.mpr hit
    rcases List.mem_cons.mp hit2 with hcase | hcase
    · rw [hcase]
    · have := (List.pairwise_cons.mp hsorted).1 it hcase
      simpa using this

theorem enforce_one_over (s : CanvasState) (e : CanvasImageItem)
    (rest : List CanvasImageItem) (hLen : s.items.length = 51)
    (hNodup : (s.items.map (fun it => it.id)).Nodup)
    (hsort : s.items.mergeSort (fun a b => decide (a.createdAt ≤ b.createdAt)) = e :: rest) :
    (enforceImageLimit s).items = s.items.filter (fun it => it.id != e.id) ∧
    (enforceImageLimit s).items.length = 50 ∧
    (enforceImageLimit s).selectedId =
      (match s.selectedId with
       | some sid => if sid = e.id then none else some sid
       | none => none) := by
  have heMem : e ∈ s.items := (mergeSort_head_min s.items e rest hsort).1
  have hgt : ¬ (s.items.length ≤ MAX_IMAGES) := by
    rw [hLen, MAX_IMAGES]
    norm_num
  have htake : (s.items.mergeSort (fun a b => decide (a.createdAt ≤ b.createdAt))).take
      (s.items.length - MAX_IMAGES) = [e] := by
    rw [hsort, hLen, MAX_IMAGES]
    rfl
  have hfun : ∀ it ∈ s.items,
      (! (((s.items.mergeSort (fun a b => decide (a.createdAt ≤ b.createdAt))).take
        (s.items.length - MAX_IMAGES)).map (fun item => item.id)).contains it.id) =
      (it.id != e.id) := by
    intro it _
    rw [htake]
    by_cases h : it.id = e.id <;> simp [h]
  have hItems : (enforceImageLimit s).items =
      s.items.filter (fun it => it.id != e.id) := by
    simp only [enforceImageLimit, if_neg hgt]
    exact List.filter_congr hfun
  refine ⟨hItems, ?_, ?_⟩
  · rw [hItems]
    have := filter_ne_length_of_nodup s.items e hNodup heMem
    omega
  · simp only [enforceImageLimit, if_neg hgt]
    cases hsel : s.selectedId with
    | none => rfl
    | some sid =>
        simp only [htake, List.map_cons, List.map_nil, List.contains_cons,
          List.contains_nil, Bool.or_false]
        by_cases h : sid = e.id <;> simp [h]

/-- C3: from a state holding exactly 50 items (with distinct ids and distinct
creation timestamps), adding one more item evicts exactly one item — the one
with the smallest createdAt among the 51 — leaving 50 items; the survivors are
exactly the other 50 items, unchanged and in order; the selection (the freshly
added item) is cleared iff the evicted item is the freshly added item
itself. -/
theorem c3_cap_eviction (center : ℚ × ℚ) (meta : NewItemMeta) (st : CanvasState)
    (dataUrl : String) (naturalWidth naturalHeight : ℚ) (source : ImageSource)
    (hLen : st.items.length = 50)
    (hNodup : ((st.items ++
      [(createCanvasItem center meta st dataUrl naturalWidth naturalHeight source).1]).map
        (fun it => it.id)).Nodup)
    (hTs : (st.items ++
      [(createCanvasItem center meta st dataUrl naturalWidth naturalHeight source).1]).Pairwise
        (fun a b => a.createdAt ≠ b.createdAt)) :
    ∃ e ∈ st.items ++
        [(createCanvasItem center meta st dataUrl naturalWidth naturalHeight source).1],
      (∀ it ∈ st.items ++
          [(createCanvasItem center meta st dataUrl naturalWidth naturalHeight source).1],
        e.createdAt ≤ it.createdAt) ∧
      (∀ it ∈ st.items ++
          [(createCanvasItem center meta st dataUrl naturalWidth naturalHeight source).1],
        it ≠ e → e.createdAt < it.createdAt) ∧
      (addCanvasItem center meta st dataUrl naturalWidth naturalHeight source).items =
        (st.items ++
          [(createCanvasItem center meta st dataUrl naturalWidth naturalHeight source).1]).filter
          (fun it => it.id != e.id) ∧
      (addCanvasItem center meta st dataUrl naturalWidth naturalHeight source).items.length
        = 50 ∧
      (addCanvasItem center meta st dataUrl naturalWidth naturalHeight source).selectedId =
        (if e.id = meta.newId then none else some meta.newId) := by
  have hLen51 : (st.items ++
      [(createCanvasItem center meta st dataUrl naturalWidth naturalHeight source).1]).length
      = 51 := by
    simp [hLen]
  obtain ⟨e, rest, hsort⟩ :
      ∃ e rest, (st.items ++
        [(createCanvasItem center meta st dataUrl naturalWidth naturalHeight
          source).1]).mergeSort (fun a b => decide (a.createdAt ≤ b.createdAt)) =
        e :: rest := by
    cases hs : (st.items ++
        [(createCanvasItem center meta st dataUrl naturalWidth naturalHeight
          source).1]).mergeSort (fun a b => decide (a.createdAt ≤ b.createdAt)) with
    | nil =>
        have hl := (List.mergeSort_perm (st.items ++
          [(createCanvasItem center meta st dataUrl naturalWidth naturalHeight source).1])
          (fun a b => decide (a.createdAt ≤ b.createdAt))).length_eq
        rw [hs, hLen51] at hl
        simp at hl
    | cons e rest => exact ⟨e, rest, rfl⟩
  obtain ⟨heMem, heMin⟩ := mergeSort_head_min _ e rest hsort
  have heStrict : ∀ it ∈ st.items ++
      [(createCanvasItem center meta st dataUrl naturalWidth naturalHeight source).1],
      it ≠ e → e.createdAt < it.createdAt := by
    intro it hit hne
    have hneq : e.createdAt ≠ it.createdAt :=
      List.Pairwise.forall (fun a b h => h.symm) hTs heMem hit (Ne.symm hne)
    exact lt_of_le_of_ne (heMin it hit) hneq
  have hPre : addCanvasItem center meta st dataUrl naturalWidth naturalHeight source =
      enforceImageLimit
        { items := st.items ++
            [(createCanvasItem center meta st dataUrl naturalWidth naturalHeight source).1],
          selectedId := some meta.newId,
          nextZIndex := (createCanvasItem center meta st dataUrl naturalWidth
            naturalHeight source).2.nextZIndex,
          placementOffsetIndex := (createCanvasItem center meta st dataUrl naturalWidth
            naturalHeight source).2.placementOffsetIndex } := rfl
  obtain ⟨hItems, hCount, hSel⟩ := enforce_one_over
    { items := st.items ++
        [(createCanvasItem center meta st dataUrl naturalWidth naturalHeight source).1],
      selectedId := some meta.newId,
      nextZIndex := (createCanvasItem center meta st dataUrl naturalWidth
        naturalHeight source).2.nextZIndex,
      placementOffsetIndex := (createCanvasItem center meta st dataUrl naturalWidth
        naturalHeight source).2.placementOffsetIndex }
    e rest hLen51 hNodup hsort
  refine ⟨e, heMem, heMin, heStrict, ?_, ?_, ?_⟩
  · rw [hPre]
    exact hItems
  · rw [hPre]
    exact hCount
  · rw [hPre, hSel]
    show (if meta.newId = e.id then none else some meta.newId) = _
    by_cases h : meta.newId = e.id
    · rw [if_pos h, if_pos h.symm]
    · rw [if_neg h, if_neg (show ¬ (e.id = meta.newId) from fun hEq => h hEq.symm)]

/-- The 50 items of the C3 witness state: ids and timestamps 0 through 49. -/
def c3Items : List CanvasImageItem :=
(List.range 50).map (fun n =>
  { id := n, source := .paste, dataUrl := "d", naturalWidth := 24, naturalHeight := 24,
    x := 0, y := 0, width := 24, height := 24, zIndex := 1, createdAt := (n : ℤ) })

/-- The full-to-capacity state of the C3 witness. -/
def c3State : CanvasState :=
{ items := c3Items, selectedId := some 49, nextZIndex := 51, placementOffsetIndex := 0 }

/-- C3 witness: the theorem applied to the concrete 50-item state with a 51st
item of id 50 and the largest timestamp. -/
theorem c3_witness :
    c3State.items.length = 50 ∧
    (((c3State.items ++
        [(createCanvasItem (1000, 1000) { newId := 50, createdAt := 50 } c3State
          "d" 24 24 .paste).1]).map (fun it => it.id)).Nodup) ∧
    ((c3State.items ++
        [(createCanvasItem (1000, 1000) { newId := 50, createdAt := 50 } c3State
          "d" 24 24 .paste).1]).Pairwise (fun a b => a.createdAt ≠ b.createdAt)) ∧
    (∃ e ∈ c3State.items ++
        [(createCanvasItem (1000, 1000) { newId := 50, createdAt := 50 } c3State
          "d" 24 24 .paste).1],
      (∀ it ∈ c3State.items ++
          [(createCanvasItem (1000, 1000) { newId := 50, createdAt := 50 } c3State
            "d" 24 24 .paste).1],
        e.createdAt ≤ it.createdAt) ∧
      (∀ it ∈ c3State.items ++
          [(createCanvasItem (1000, 1000) { newId := 50, createdAt := 50 } c3State
            "d" 24 24 .paste).1],
        it ≠ e → e.createdAt < it.createdAt) ∧
      (addCanvasItem (1000, 1000) { newId := 50, createdAt := 50 } c3State
        "d" 24 24 .paste).items =
        (c3State.items ++
          [(createCanvasItem (1000, 1000) { newId := 50, createdAt := 50 } c3State
            "d" 24 24 .paste).1]).filter (fun it => it.id != e.id) ∧
      (addCanvasItem (1000, 1000) { newId := 50, createdAt := 50 } c3State
        "d" 24 24 .paste).items.length = 50 ∧
      (addCanvasItem (1000, 1000) { newId := 50, createdAt := 50 } c3State
        "d" 24 24 .paste).selectedId =
        (if e.id = ({ newId := 50, createdAt := 50 } : NewItemMeta).newId then none
         else some ({ newId := 50, createdAt := 50 } : NewItemMeta).newId)) :=
⟨by decide, by decide, by decide,
 c3_cap_eviction (1000, 1000) { newId := 50, createdAt := 50 } c3State "d" 24 24 .paste
   (by decide) (by decide) (by decide)⟩

theorem enforce_id_of_le (s : CanvasState) (h : s.items.length ≤ MAX_IMAGES) :
    enforceImageLimit s = s := by
  unfold enforceImageLimit
  rw [if_pos h]

theorem addCanvasItem_items_of_lt (center : ℚ × ℚ) (meta : NewItemMeta) (st : CanvasState)
    (dataUrl : String) (nw nh : ℚ) (src : ImageSource) (h : st.items.length < MAX_IMAGES) :
    (addCanvasItem center meta st dataUrl nw nh src).items =
      st.items ++ [(createCanvasItem center meta st dataUrl nw nh src).1] := by
  have hEq : (createCanvasItem center meta st dataUrl nw nh src).2.items = st.items := rfl
  show (enforceImageLimit _).items = _
  rw [enforce_id_of_le _ (by
    show ((createCanvasItem center meta st dataUrl nw nh src).2.items ++
      [(createCanvasItem center meta st dataUrl nw nh src).1]).length ≤ MAX_IMAGES
    rw [hEq]
    simp only [List.length_append, List.length_singleton]
    omega)]
  show (createCanvasItem center meta st dataUrl nw nh src).2.items ++
    [(createCanvasItem center meta st dataUrl nw nh src).1] = _
  rw [hEq]

theorem countP_decoded_split (files : List DroppedFile) :
    files.countP (fun f => f.decoded.isSome) + files.countP (fun f => f.decoded.isNone) =
      files.length := by
  induction files with
  | nil => simp
  | cons a t ih =>
      cases ha : a.decoded <;> simp [List.countP_cons, ha] <;> omega

theorem dropLoop_counts (center : ℚ × ℚ) (files : List DroppedFile) (st : CanvasState)
    (s f : Nat) :
    (dropLoop center files st s f).2.1 = s + files.countP (fun x => x.decoded.isSome) ∧
    (dropLoop center files st s f).2.2 = f + files.countP (fun x => x.decoded.isNone) := by
  induction files generalizing st s f with
  | nil => simp [dropLoop]
  | cons a t ih =>
      cases ha : a.decoded with
      | some d =>
          simp only [dropLoop, ha]
          obtain ⟨h1, h2⟩ := ih (addCanvasItem center a.meta st d.1 d.2.1 d.2.2 .drop)
            (s + 1) f
          rw [h1, h2]
          simp [List.countP_cons, ha]
          omega
      | none =>
          simp only [dropLoop, ha]
          obtain ⟨h1, h2⟩ := ih st s (f + 1)
          rw [h1, h2]
          simp [List.countP_cons, ha]
          omega

theorem dropLoop_items (center : ℚ × ℚ) (files : List DroppedFile) (st : CanvasState)
    (s f : Nat) (hcap : st.items.length + files.countP (fun x => x.decoded.isSome) ≤ 50) :
    ∃ tail, (dropLoop center files st s f).1.items = st.items ++ tail ∧
      tail.length = files.countP (fun x => x.decoded.isSome) := by
  induction files generalizing st s f with
  | nil => exact ⟨[], by simp [dropLoop], by simp⟩
  | cons a t ih =>
      cases ha : a.decoded with
      | none =>
          simp only [dropLoop, ha]
          have hcap2 : st.items.length + t.countP (fun x => x.decoded.isSome) ≤ 50 := by
            simp [List.countP_cons, ha] at hcap
            omega
          obtain ⟨tail, h1, h2⟩ := ih st s (f + 1) hcap2
          refine ⟨tail, h1, ?_⟩
          rw [h2]
          simp [List.countP_cons, ha]
      | some d =>
          simp only [dropLoop, ha]
          have hcnt : (a :: t).countP (fun x => x.decoded.isSome) =
              t.countP (fun x => x.decoded.isSome) + 1 := by
            simp [List.countP_cons, ha]
          rw [hcnt] at hcap
          have hlt : st.items.length < MAX_IMAGES := by
            rw [MAX_IMAGES]
            omega
          have hAdd := addCanvasItem_items_of_lt center a.meta st d.1 d.2.1 d.2.2 .drop hlt
          have hcap2 : (addCanvasItem center a.meta st d.1 d.2.1 d.2.2 .drop).items.length +
              t.countP (fun x => x.decoded.isSome) ≤ 50 := by
            rw [hAdd]
            simp only [List.length_append, List.length_singleton]
            omega
          obtain ⟨tail, h1, h2⟩ := ih (addCanvasItem center a.meta st d.1 d.2.1 d.2.2 .drop)
            (s + 1) f hcap2
          refine ⟨(createCanvasItem center a.meta st d.1 d.2.1 d.2.2 .drop).1 :: tail, ?_, ?_⟩
          · rw [h1, hAdd]
            simp
          · simp only [List.length_cons, h2, hcnt]

theorem dropLoop_state_of_none (center : ℚ × ℚ) (files : List DroppedFile)
    (st : CanvasState) (s f : Nat)
    (h : files.countP (fun x => x.decoded.isSome) = 0) :
    (dropLoop center files st s f).1 = st := by
  induction files generalizing st s f with
  | nil => simp [dropLoop]
  | cons a t ih =>
      cases ha : a.decoded with
      | some d =>
          exfalso
          simp [List.countP_cons, ha] at h
      | none =>
          simp only [dropLoop, ha]
          exact ih st s (f + 1) (by simpa [List.countP_cons, ha] using h)

theorem pushUndo_of_room (stack : List CanvasState) (x : CanvasState)
    (h : stack.length < UNDO_LIMIT) : pushUndo stack x = stack ++ [x] := by
  simp only [pushUndo]
  rw [if_neg]
  simp only [List.length_append, List.length_singleton]
  omega

/-- C8: a batch drop of N image-typed files of which k fail to decode and
N − k succeed adds exactly N − k items (appended after the existing ones),
pushes exactly one history entry whose snapshot is the state before the first
addition, and reports the success and failure counts; when every file fails
(or the batch is empty) no item is added and no history entry is pushed. -/
theorem c8_batch_drop (center : ℚ × ℚ) (files : List DroppedFile) (c : Component)
    (hImg : ∀ f ∈ files, f.isImage = true) :
    (files.countP (fun f => f.decoded.isSome) +
       files.countP (fun f => f.decoded.isNone) = files.length) ∧
    (1 ≤ files.countP (fun f => f.decoded.isSome) →
      c.state.items.length + files.countP (fun f => f.decoded.isSome) ≤ 50 →
      (∃ tail, (addDroppedFiles center files c).state.items = c.state.items ++ tail ∧
         tail.length = files.countP (fun f => f.decoded.isSome)) ∧
      (addDroppedFiles center files c).undoStack = pushUndo c.undoStack c.state ∧
      (c.undoStack.length < UNDO_LIMIT →
        (addDroppedFiles center files c).undoStack = c.undoStack ++ [c.state]) ∧
      (addDroppedFiles center files c).noticeMessage =
        (if 0 < files.countP (fun f => f.decoded.isNone) then
           toString (files.countP (fun f => f.decoded.isSome)) ++ "件追加し、" ++
             toString (files.countP (fun f => f.decoded.isNone)) ++ "件は失敗しました。"
         else
           toString (files.countP (fun f => f.decoded.isSome)) ++ "件の画像を追加しました。")) ∧
    (files.countP (fun f => f.decoded.isSome) = 0 →
      (addDroppedFiles center files c).state = c.state ∧
      (addDroppedFiles center files c).undoStack = c.undoStack) := by
  have hFilter : files.filter (fun f => f.isImage) = files :=
    List.filter_eq_self.mpr hImg
  obtain ⟨hs, hf⟩ := dropLoop_counts center files c.state 0 0
  rw [Nat.zero_add] at hs hf
  refine ⟨countP_decoded_split files, ?_, ?_⟩
  · intro hOne hCap
    have hne : ¬ (files.length = 0) := by
      have := countP_decoded_split files
      omega
    have hEq : addDroppedFiles center files c =
        (if (dropLoop center files c.state 0 0).2.1 = 0 then
          { { c with state := (dropLoop center files c.state 0 0).1 } with
              noticeMessage := "画像を追加できませんでした。" }
        else
          let c2 := { { c with state := (dropLoop center files c.state 0 0).1 } with
            undoStack := pushUndo c.undoStack c.state }
          if (dropLoop center files c.state 0 0).2.2 > 0 then
            { c2 with noticeMessage :=
                toString (dropLoop center files c.state 0 0).2.1 ++ "件追加し、" ++
                  toString (dropLoop center files c.state 0 0).2.2 ++ "件は失敗しました。" }
          else
            { c2 with noticeMessage :=
                toString (dropLoop center files c.state 0 0).2.1 ++ "件の画像を追加しました。" }) := by
      simp only [addDroppedFiles, hFilter, createSnapshot]
      rw [if_neg hne]
    have hsz : ¬ ((dropLoop center files c.state 0 0).2.1 = 0) := by
      rw [hs]
      omega
    rw [hEq, if_neg hsz]
    simp only [hs, hf]
    refine ⟨?_, ?_, ?_, ?_⟩
    · obtain ⟨tail, h1, h2⟩ := dropLoop_items center files c.state 0 0 hCap
      by_cases hk : 0 < files.countP (fun f => f.decoded.isNone) <;>
        simp only [if_pos, if_neg, hk] <;>
        exact ⟨tail, h1, h2⟩
    · by_cases hk : 0 < files.countP (fun f => f.decoded.isNone) <;> simp [hk]
    · intro hRoom
      rw [← pushUndo_of_room c.undoStack c.state hRoom]
      by_cases hk : 0 < files.countP (fun f => f.decoded.isNone) <;> simp [hk]
    · by_cases hk : 0 < files.countP (fun f => f.decoded.isNone) <;> simp [hk]
  · intro hZero
    by_cases hemp : files.length = 0
    · have hEq : addDroppedFiles center files c =
          { c with noticeMessage := "画像ファイルをドロップしてください。" } := by
        simp only [addDroppedFiles, hFilter]
        rw [if_pos hemp]
      rw [hEq]
      exact ⟨rfl, rfl⟩
    · have hEq : addDroppedFiles center files c =
          { { c with state := (dropLoop center files c.state 0 0).1 } with
              noticeMessage := "画像を追加できませんでした。" } := by
        simp only [addDroppedFiles, hFilter, createSnapshot]
        rw [if_neg hemp, if_pos (by rw [hs]; exact hZero)]
      rw [hEq, dropLoop_state_of_none center files c.state 0 0 hZero]
      exact ⟨rfl, rfl⟩

/-- The three-file batch of the C8 witness: two decodable files and one that
fails to decode. -/
def c8Files : List DroppedFile :=
[{ isImage := true, decoded := some ("d1", 100, 100), meta := { newId := 1, createdAt := 1 } },
 { isImage := true, decoded := none, meta := { newId := 2, createdAt := 2 } },
 { isImage := true, decoded := some ("d3", 100, 100), meta := { newId := 3, createdAt := 3 } }]

/-- C8 witness: the theorem applied to the concrete 3-file batch (one decode
failure) dropped on the empty initial canvas. -/
theorem c8_witness :
    (∀ f ∈ c8Files, f.isImage = true) ∧
    1 ≤ c8Files.countP (fun f => f.decoded.isSome) ∧
    initialComponent.state.items.length + c8Files.countP (fun f => f.decoded.isSome) ≤ 50 ∧
    ((∃ tail, (addDroppedFiles (0, 0) c8Files initialComponent).state.items =
        initialComponent.state.items ++ tail ∧
        tail.length = c8Files.countP (fun f => f.decoded.isSome)) ∧
     (addDroppedFiles (0, 0) c8Files initialComponent).undoStack =
       pushUndo initialComponent.undoStack initialComponent.state ∧
     (initialComponent.undoStack.length < UNDO_LIMIT →
       (addDroppedFiles (0, 0) c8Files initialComponent).undoStack =
         initialComponent.undoStack ++ [initialComponent.state]) ∧
     (addDroppedFiles (0, 0) c8Files initialComponent).noticeMessage =
       (if 0 < c8Files.countP (fun f => f.decoded.isNone) then
          toString (c8Files.countP (fun f => f.decoded.isSome)) ++ "件追加し、" ++
            toString (c8Files.countP (fun f => f.decoded.isNone)) ++ "件は失敗しました。"
        else
          toString (c8Files.countP (fun f => f.decoded.isSome)) ++ "件の画像を追加しました。")) :=
⟨by decide, by decide, by decide,
 (c8_batch_drop (0, 0) c8Files initialComponent (by decide)).2.1 (by decide) (by decide)⟩

/-- Selection validity: a non-null selected id names an item currently present
in the item sequence. -/
def SelOk (st : CanvasState) : Prop :=
∀ sid, st.selectedId = some sid → ∃ item ∈ st.items, item.id = sid

/-- The full component invariant carried through the reachability induction:
the live state, every snapshot on the undo stack, and the pre-session snapshot
of any active interaction all satisfy selection validity. -/
def InvC (c : Component) : Prop :=
SelOk c.state ∧ (∀ s ∈ c.undoStack, SelOk s) ∧
(∀ i, c.interaction = some i → SelOk i.startSnapshot)

theorem selOk_updateItem {st : CanvasState} {itemId : Nat}
    {f : CanvasImageItem → CanvasImageItem} (hf : ∀ it, (f it).id = it.id)
    (h : SelOk st) : SelOk (updateItem st itemId f) := by
  intro sid hsel
  obtain ⟨it, hmem, hid⟩ := h sid hsel
  refine ⟨if it.id = itemId then f it else it, ?_, ?_⟩
  · show _ ∈ st.items.map _
    exact List.mem_map_of_mem (fun item => if item.id = itemId then f item else item) hmem
  · split_ifs
    · rw [hf it, hid]
    · exact hid

theorem selOk_enforce {st : CanvasState} (h : SelOk st) : SelOk (enforceImageLimit st) := by
  unfold enforceImageLimit
  split_ifs with hle
  · exact h
  · intro sid hsel
    cases hsid : st.selectedId with
    | none => rw [hsid] at hsel; exact absurd hsel (by simp)
    | some s0 =>
        rw [hsid] at hsel
        simp only [] at hsel
        by_cases hc : (((st.items.mergeSort
            (fun a b => decide (a.createdAt ≤ b.createdAt))).take
            (st.items.length - MAX_IMAGES)).map (fun item => item.id)).contains s0
        · rw [if_pos hc] at hsel
          exact absurd hsel (by simp)
        · rw [if_neg hc] at hsel
          obtain rfl : s0 = sid := Option.some.inj hsel
          obtain ⟨it, hmem, hid⟩ := h s0 hsid
          refine ⟨it, List.mem_filter.mpr ⟨hmem, ?_⟩, hid⟩
          rw [hid]
          simpa using hc

theorem selOk_state_addCanvasItem (center : ℚ × ℚ) (meta : NewItemMeta)
    (st : CanvasState) (dataUrl : String) (nw nh : ℚ) (src : ImageSource) :
    SelOk (addCanvasItem center meta st dataUrl nw nh src) := by
  apply selOk_enforce
  intro sid hsel
  obtain rfl : meta.newId = sid := Option.some.inj hsel
  exact ⟨(createCanvasItem center meta st dataUrl nw nh src).1,
    List.mem_append_right _ (List.mem_singleton_self _), rfl⟩

theorem selOk_removeItem {st : CanvasState} (itemId : Nat) (h : SelOk st) :
    SelOk (removeItem st itemId).1 := by
  intro sid hsel
  simp only [removeItem] at hsel ⊢
  split_ifs at hsel with hcond
  obtain ⟨it, hmem, hid⟩ := h sid hsel
  by_cases hsi : sid = itemId
  · have hlen : (st.items.filter (fun item => item.id != itemId)).length =
        st.items.length := by
      by_contra hne
      exact hcond ⟨by simpa using hne, by rw [← hsi]; exact hsel⟩
    have hall := (List.filter_length_eq_length).mp hlen
    exact ⟨it, List.mem_filter.mpr ⟨hmem, hall it hmem⟩, hid⟩
  · refine ⟨it, List.mem_filter.mpr ⟨hmem, ?_⟩, hid⟩
    simp [hid, hsi]

theorem stackOk_pushUndo {stack : List CanvasState} {snap : CanvasState}
    (hs : ∀ s ∈ stack, SelOk s) (hn : SelOk snap) :
    ∀ s ∈ pushUndo stack snap, SelOk s := by
  intro s hmem
  simp only [pushUndo] at hmem
  have hmem2 : s ∈ stack ++ [snap] := by
    split_ifs at hmem with hgt
    · exact List.mem_of_mem_drop hmem
    · exact hmem
  rcases List.mem_append.mp hmem2 with h1 | h2
  · exact hs s h1
  · rw [List.mem_singleton.mp h2]; exact hn

theorem selOk_bringToFront {st : CanvasState} (itemId : Nat) (h : SelOk st) :
    SelOk (bringToFront st itemId) := by
  cases hfind : getItemById st itemId with
  | none => simp only [bringToFront, hfind]; exact h
  | some current =>
      simp only [bringToFront, hfind]
      split_ifs with htop
      · exact h
      · exact selOk_updateItem (fun it => rfl) h

theorem selOk_selectItem {st : CanvasState} {itemId : Nat} {item : CanvasImageItem}
    (hfind : getItemById st itemId = some item) :
    SelOk (selectItem st itemId) := by
  simp only [getItemById] at hfind
  apply selOk_bringToFront
  intro sid hsel
  obtain rfl : itemId = sid := Option.some.inj hsel
  exact ⟨item, List.mem_of_find?_eq_some hfind, by simpa using List.find?_some hfind⟩

theorem copySelectedImage_frame (active : Bool) (w : Option ClipboardWriteResult)
    (c : Component) :
    (copySelectedImage active w c).1.state = c.state ∧
    (copySelectedImage active w c).1.undoStack = c.undoStack ∧
    (copySelectedImage active w c).1.interaction = c.interaction := by
  unfold copySelectedImage
  repeat' split
  all_goals exact ⟨rfl, rfl, rfl⟩

theorem invC_initial : InvC initialComponent := by
  refine ⟨?_, ?_, ?_⟩
  · intro sid hsel
    simp only [initialComponent] at hsel
    exact Option.noConfusion hsel
  · intro s hs
    simp only [initialComponent] at hs
    exact absurd hs (List.not_mem_nil s)
  · intro i hi
    simp only [initialComponent] at hi
    exact Option.noConfusion hi

theorem invC_handlePaste (a : Bool) (ctr : ℚ × ℚ) (m : NewItemMeta)
    (p : Option (Option ClipboardImagePayload)) {c : Component} (h : InvC c) :
    InvC (handlePaste a ctr m p c) := by
  obtain ⟨h1, h2, h3⟩ := h
  rcases p with _ | (_ | payload)
  · simp only [handlePaste]
    split_ifs with ha
    · exact ⟨h1, h2, h3⟩
    · exact ⟨h1, h2, h3⟩
  · simp only [handlePaste]
    split_ifs with ha
    · exact ⟨h1, h2, h3⟩
    · exact ⟨h1, h2, h3⟩
  · simp only [handlePaste]
    split_ifs with ha
    · exact ⟨selOk_state_addCanvasItem ctr m c.state _ payload.width payload.height .paste,
        stackOk_pushUndo h2 h1, h3⟩
    · exact ⟨h1, h2, h3⟩

theorem selOk_dropLoop (center : ℚ × ℚ) (files : List DroppedFile) :
    ∀ (st : CanvasState) (sc fc : Nat), SelOk st → SelOk (dropLoop center files st sc fc).1 := by
  induction files with
  | nil => intro st sc fc h; exact h
  | cons f rest ih =>
      intro st sc fc h
      rcases hd : f.decoded with _ | d
      · simp only [dropLoop, hd]
        exact ih st sc (fc + 1) h
      · simp only [dropLoop, hd]
        exact ih _ _ _ (selOk_state_addCanvasItem center f.meta st d.1 d.2.1 d.2.2 .drop)

theorem invC_addDroppedFiles (ctr : ℚ × ℚ) (fs : List DroppedFile) {c : Component}
    (h : InvC c) : InvC (addDroppedFiles ctr fs c) := by
  obtain ⟨h1, h2, h3⟩ := h
  simp only [addDroppedFiles]
  split_ifs with hemp hzero hfail
  · exact ⟨h1, h2, h3⟩
  · exact ⟨selOk_dropLoop ctr _ c.state 0 0 h1, h2, h3⟩
  · exact ⟨selOk_dropLoop ctr _ c.state 0 0 h1, stackOk_pushUndo h2 h1, h3⟩
  · exact ⟨selOk_dropLoop ctr _ c.state 0 0 h1, stackOk_pushUndo h2 h1, h3⟩

theorem invC_undo {c : Component} (h : InvC c) : InvC (undo c) := by
  obtain ⟨h1, h2, h3⟩ := h
  simp only [undo]
  split_ifs with hguard
  · exact ⟨h1, h2, h3⟩
  · rw [not_or, not_not, not_ne_iff] at hguard
    cases hlast : c.undoStack.getLast? with
    | none => exact ⟨h1, h2, h3⟩
    | some snapshot =>
        refine ⟨?_, ?_, ?_⟩
        · exact h2 snapshot (List.mem_of_getLast?_eq_some hlast)
        · intro s hs
          exact h2 s (List.dropLast_subset _ hs)
        · intro i hi
          have hi2 : c.interaction = some i := hi
          rw [hguard.2] at hi2
          exact Option.noConfusion hi2

theorem invC_copy (a : Bool) (w : Option ClipboardWriteResult) {c : Component}
    (h : InvC c) : InvC (copySelectedImage a w c).1 := by
  obtain ⟨hst, hus, hin⟩ := copySelectedImage_frame a w c
  obtain ⟨h1, h2, h3⟩ := h
  refine ⟨?_, ?_, ?_⟩
  · rw [hst]; exact h1
  · rw [hus]; exact h2
  · intro i hi
    exact h3 i (by rw [← hin]; exact hi)

theorem invC_removeSelectedItem (tu : Bool) {c : Component} (h : InvC c) :
    InvC (removeSelectedItem c tu) := by
  obtain ⟨h1, h2, h3⟩ := h
  cases hsel : c.state.selectedId with
  | none => simp only [removeSelectedItem, hsel]; exact ⟨h1, h2, h3⟩
  | some sid =>
      simp only [removeSelectedItem, hsel]
      split_ifs with hrem htrack
      · exact ⟨selOk_removeItem sid h1, stackOk_pushUndo h2 h1, h3⟩
      · exact ⟨selOk_removeItem sid h1, h2, h3⟩
      · exact ⟨selOk_removeItem sid h1, h2, h3⟩

theorem invC_stopInteraction (commit : Bool) {c : Component} (h : InvC c) :
    InvC (stopInteraction c commit) := by
  obtain ⟨h1, h2, h3⟩ := h
  cases hint : c.interaction with
  | none =>
      simp only [stopInteraction, hint]
      exact ⟨h1, h2, fun i hi => Option.noConfusion hi⟩
  | some cur =>
      simp only [stopInteraction, hint]
      split_ifs with hcommit hchanged
      · exact ⟨h1, stackOk_pushUndo h2 (h3 cur hint), fun i hi => Option.noConfusion hi⟩
      · exact ⟨h1, h2, fun i hi => Option.noConfusion hi⟩
      · exact ⟨h1, h2, fun i hi => Option.noConfusion hi⟩

theorem invC_startMove (a : Bool) (e : MouseEvent) (i : Nat) {c : Component}
    (h : InvC c) : InvC (startMove a e i c) := by
  obtain ⟨h1, h2, h3⟩ := h
  simp only [startMove]
  split_ifs with hg
  · exact ⟨h1, h2, h3⟩
  · cases hfind : getItemById c.state i with
    | none => exact ⟨h1, h2, h3⟩
    | some item =>
        refine ⟨selOk_selectItem hfind, h2, ?_⟩
        intro j hj
        injection hj with hj2
        subst hj2
        exact h1

theorem invC_startResize (a : Bool) (e : MouseEvent) (i : Nat) (hd : ResizeHandle)
    {c : Component} (h : InvC c) : InvC (startResize a e i hd c) := by
  obtain ⟨h1, h2, h3⟩ := h
  simp only [startResize]
  split_ifs with hg
  · exact ⟨h1, h2, h3⟩
  · cases hfind : getItemById c.state i with
    | none => exact ⟨h1, h2, h3⟩
    | some item =>
        refine ⟨selOk_selectItem hfind, h2, ?_⟩
        intro j hj
        injection hj with hj2
        subst hj2
        exact h1

theorem invC_clearSelection (a : Bool) (e : MouseEvent) {c : Component}
    (h : InvC c) : InvC (clearSelection a e c) := by
  obtain ⟨h1, h2, h3⟩ := h
  simp only [clearSelection]
  split_ifs with hg
  · exact ⟨h1, h2, h3⟩
  · refine ⟨?_, h2, h3⟩
    intro sid hsel
    exact Option.noConfusion hsel

theorem invC_handlePointerMove (e : MouseEvent) {c : Component} (h : InvC c) :
    InvC (handlePointerMove e c) := by
  obtain ⟨h1, h2, h3⟩ := h
  cases hint : c.interaction with
  | none => simp only [handlePointerMove, hint]; exact ⟨h1, h2, h3⟩
  | some cur =>
      cases hfind : getItemById c.state cur.itemId with
      | none =>
          simp only [handlePointerMove, hint, hfind]
          exact invC_stopInteraction false ⟨h1, h2, h3⟩
      | some item =>
          cases cur with
          | move m =>
              simp only [handlePointerMove, hint, hfind]
              refine ⟨selOk_updateItem (fun it => rfl) h1, h2, ?_⟩
              intro j hj
              exact h3 j (by rw [hint]; exact hj)
          | resize r =>
              simp only [handlePointerMove, hint, hfind]
              refine ⟨selOk_updateItem (fun it => rfl) h1, h2, ?_⟩
              intro j hj
              exact h3 j (by rw [hint]; exact hj)

theorem invC_handleKeyDown (a t : Bool) (w : Option ClipboardWriteResult) (e : KeyEvent)
    {c : Component} (h : InvC c) : InvC (handleKeyDown a t w e c).1 := by
  obtain ⟨h1, h2, h3⟩ := h
  simp only [handleKeyDown]
  split_ifs with hg hc hz hzguard hdel
  · exact ⟨h1, h2, h3⟩
  · cases hsel : c.state.selectedId with
    | none => exact ⟨h1, h2, h3⟩
    | some sid => exact invC_copy a w ⟨h1, h2, h3⟩
  · exact ⟨h1, h2, h3⟩
  · exact invC_undo ⟨h1, h2, h3⟩
  · cases hsel : c.state.selectedId with
    | none => exact ⟨h1, h2, h3⟩
    | some sid => exact invC_removeSelectedItem true ⟨h1, h2, h3⟩
  · exact ⟨h1, h2, h3⟩

theorem invC_reachable {c : Component} (h : Reachable c) : InvC c := by
  induction h with
  | init => exact invC_initial
  | paste a ctr m p _ ih => exact invC_handlePaste a ctr m p ih
  | drop ctr fs _ ih => exact invC_addDroppedFiles ctr fs ih
  | keydown a t w e _ ih => exact invC_handleKeyDown a t w e ih
  | undoClick _ ih => exact invC_undo ih
  | copyClick a w _ ih => exact invC_copy a w ih
  | moveStart a e i _ ih => exact invC_startMove a e i ih
  | resizeStart a e i hd _ ih => exact invC_startResize a e i hd ih
  | pointerMove e _ ih => exact invC_handlePointerMove e ih
  | pointerUp _ ih => exact invC_stopInteraction true ih
  | unmount _ ih => exact invC_stopInteraction false ih
  | clearSel a e _ ih => exact invC_clearSelection a e ih
  | deleteSel _ ih => exact invC_removeSelectedItem true ih

/-- C10: in every reachable canvas state the selected id is either null or the
id of an item currently present in the item sequence; since reachability closes
the initial state under every installed handler (add, delete, cap eviction,
undo restore, selection change, pointer sessions), each of those operations
preserves the property. -/
theorem c10_selection_valid (c : Component) (h : Reachable c) :
    ∀ sid, c.state.selectedId = some sid → ∃ item ∈ c.state.items, item.id = sid :=
(invC_reachable h).1

theorem c10_witness :
    Reachable initialComponent ∧
    (∀ sid, initialComponent.state.selectedId = some sid →
      ∃ item ∈ initialComponent.state.items, item.id = sid) :=
⟨Reachable.init, c10_selection_valid initialComponent Reachable.init⟩
